import Mathlib

/-!
Verification of the claude-cowork-service daemon (Go) against its
natural-language specification, via a shallow embedding in Lean 4.

Byte streams are modelled as `List Nat` (each element a byte value),
JSON text buffers as `List Char`, and stateful or concurrent code as
explicit state passing with race outcomes as parameters.
-/

namespace Cowork

/-! ## Frame codec (src/pipe/protocol.go) -/

/-- Maximum message size accepted by `ReadMessage`
(`10*1024*1024` in src/pipe/protocol.go). -/
def maxMessageSize : Nat := 10 * 1024 * 1024

/-- Big-endian 4-byte encoding of a 32-bit value, as produced by
`binary.BigEndian.PutUint32`. -/
def be32 (n : Nat) : List Nat :=
  [n / 2 ^ 24 % 256, n / 2 ^ 16 % 256, n / 2 ^ 8 % 256, n % 256]

/-- Big-endian decoding of the first four bytes of a stream, as read by
`binary.BigEndian.Uint32`. -/
def be32dec (a b c d : Nat) : Nat :=
  ((a * 256 + b) * 256 + c) * 256 + d

/-- The distinguishable failure modes of `ReadMessage`, one per
`fmt.Errorf` branch in src/pipe/protocol.go. -/
inductive ReadErr where
  /-- Go `io.ReadFull` on the 4-byte length header failed: stream ended mid-header. -/
  | shortHeader : ReadErr
  /-- declared length is zero (`zero-length message`). -/
  | zeroLength : ReadErr
  /-- declared length exceeds 10 MiB (`message too large: <n> bytes`). -/
  | tooLarge (n : Nat) : ReadErr
  /-- Go `io.ReadFull` on the payload failed: stream ended mid-payload
  (`reading payload (<n> bytes)`). -/
  | shortPayload (n : Nat) : ReadErr
deriving DecidableEq, Repr

/-- Go `ReadMessage` (src/pipe/protocol.go): read the 4-byte big-endian length
header, validate it, then read exactly that many payload bytes.  The stream
is the sequence of bytes the connection will deliver; on success the payload
and the unconsumed remainder of the stream are returned. -/
def ReadMessage (stream : List Nat) : Except ReadErr (List Nat × List Nat) :=
  match stream with
  | a :: b :: c :: d :: rest =>
    let length := be32dec a b c d
    if length = 0 then .error .zeroLength
    else if length > maxMessageSize then .error (.tooLarge length)
    else if rest.length < length then .error (.shortPayload length)
    else .ok (rest.take length, rest.drop length)
  | _ => .error .shortHeader

/-- The byte content of the single buffer `WriteMessage`
(src/pipe/protocol.go) assembles: 4-byte big-endian length of the payload
(`uint32(len(data))`, hence reduced mod `2^32`) immediately followed by the
payload bytes. -/
def frameBytes (data : List Nat) : List Nat :=
  be32 (data.length % 2 ^ 32) ++ data

/-- The write trace of one `WriteMessage` call (src/pipe/protocol.go): the
function builds `buf := header ++ payload` and issues exactly one
`conn.Write(buf)`. -/
def writeMessageWrites (data : List Nat) : List (List Nat) :=
  [frameBytes data]

/-! ## Message types and RPC dispatcher (src/pipe/protocol.go, src/pipe/handlers.go)

The payload of a frame is JSON text.  Parsing that text is done by Go's
`encoding/json`, which is outside the repository; the embedding therefore
represents a payload by the JSON value it parses to (`Option Json`, with
`none` for bytes that are not valid JSON) and models the struct decoding
the handlers perform on that value. -/

/-- A JSON value. -/
inductive Json where
  | null : Json
  | bool (b : Bool) : Json
  | num (n : Int) : Json
  | str (s : String) : Json
  | arr (elems : List Json) : Json
  | obj (fields : List (String × Json)) : Json

/-- Last-occurrence field lookup in a JSON object: when `encoding/json`
decodes an object with duplicate keys into a struct, later values overwrite
earlier ones. -/
def fieldLast : List (String × Json) → String → Option Json
  | [], _ => none
  | p :: rest, k =>
    match fieldLast rest k with
    | some v => some v
    | none => if p.1 = k then some p.2 else none

/-- Go `Request` (src/pipe/protocol.go): `method`, raw `params`, opaque `id`. -/
structure Request where
  method : String
  params : Option Json
  id : Option Json

/-- Go `Response` (src/pipe/protocol.go): `success`, optional `result`
(omitted from the wire when nil), `error` message (omitted when empty). -/
structure Reply where
  success : Bool
  result : Option Json
  error : String

/-- Go `WriteResponse` (src/pipe/protocol.go): a success reply carrying `result`. -/
def writeResponse (result : Option Json) : Reply :=
  { success := true, result := result, error := "" }

/-- Go `WriteError` (src/pipe/protocol.go): a failure reply carrying a message
(the `id` and numeric `code` arguments are not serialized at all). -/
def writeErr (message : String) : Reply :=
  { success := false, result := none, error := message }

/-- The JSON object `json.Marshal` produces for a `Response`: field order
`success`, `result`, `error`; `result` and `error` carry `omitempty`, so a
nil result and an empty error message are left out entirely. -/
def replyJson (r : Reply) : Json :=
  .obj ([("success", .bool r.success)]
    ++ (match r.result with
        | some v => [("result", v)]
        | none => [])
    ++ (if r.error = "" then [] else [("error", .str r.error)]))

/-- Member lookup on a serialized JSON object (first occurrence);
returns `none` when the member is absent or the value is not an object. -/
def getMember (j : Json) (k : String) : Option Json :=
  match j with
  | .obj fs => (fs.find? (fun p => p.1 = k)).map (fun p => p.2)
  | _ => none

/-- Decoding a payload value into `Request` as `json.Unmarshal` does:
a top-level object fills the fields (a missing or null `method` is the empty
string, a non-string `method` is an unmarshal error), top-level `null` leaves
the zero value, and any other top-level shape is an unmarshal error. -/
def decodeRequestJson : Json → Except String Request
  | .null => .ok { method := "", params := none, id := none }
  | .obj fs =>
    (show Except String String from
      match fieldLast fs "method" with
      | none => .ok ""
      | some .null => .ok ""
      | some (.str s) => .ok s
      | some _ => .error "cannot unmarshal method").map
      (fun m => { method := m, params := fieldLast fs "params", id := fieldLast fs "id" })
  | _ => .error "cannot unmarshal request"

/-- Decoding the payload bytes of one frame: bytes that are not valid JSON
(`none`) are an unmarshal error, otherwise the value is decoded as a
`Request`. -/
def decodeRequest : Option Json → Except String Request
  | none => .error "invalid JSON"
  | some j => decodeRequestJson j

/-! ### Parameter shapes (src/pipe/handlers.go) -/

/-- Go `configureParams`. -/
structure ConfigureParams where
  memory : Int
  cpus : Int

/-- Go `vmNameParams`. -/
structure VmNameParams where
  name : String

/-- Go `additionalMount`. -/
structure AdditionalMount where
  path : String
  mode : String

/-- Go `spawnParams`. -/
structure SpawnParams where
  name : String
  id : String
  cmd : String
  args : List String
  env : List (String × String)
  cwd : String
  additionalMounts : List (String × AdditionalMount)

/-- Go `processIDParams`: only the `id` member is read. -/
structure ProcessIDParams where
  processID : String

/-- Go `writeStdinParams`. -/
structure WriteStdinParams where
  processID : String
  data : String

/-- Go `mountPathParams`. -/
structure MountPathParams where
  name : String
  hostPath : String
  guestPath : String

/-- Go `readFileParams`. -/
structure ReadFileParams where
  name : String
  path : String

/-- Go `oauthTokenParams`. -/
structure OauthTokenParams where
  name : String
  token : String

/-- Go `debugLoggingParams`. -/
structure DebugLoggingParams where
  enabled : Bool

/-- Decode a string struct field: missing or null gives the zero value,
a string gives its value, anything else is an unmarshal error. -/
def getStrField (fs : List (String × Json)) (k : String) : Except String String :=
  match fieldLast fs k with
  | none => .ok ""
  | some .null => .ok ""
  | some (.str s) => .ok s
  | some _ => .error ("cannot unmarshal field " ++ k)

/-- Decode an int struct field. -/
def getIntField (fs : List (String × Json)) (k : String) : Except String Int :=
  match fieldLast fs k with
  | none => .ok 0
  | some .null => .ok 0
  | some (.num n) => .ok n
  | some _ => .error ("cannot unmarshal field " ++ k)

/-- Decode a bool struct field. -/
def getBoolField (fs : List (String × Json)) (k : String) : Except String Bool :=
  match fieldLast fs k with
  | none => .ok false
  | some .null => .ok false
  | some (.bool b) => .ok b
  | some _ => .error ("cannot unmarshal field " ++ k)

/-- Decode a `[]string` struct field. -/
def getStrArrField (fs : List (String × Json)) (k : String) :
    Except String (List String) :=
  match fieldLast fs k with
  | none => .ok []
  | some .null => .ok []
  | some (.arr xs) =>
    xs.mapM (fun j => match j with
      | .str s => Except.ok s
      | .null => Except.ok ""
      | _ => Except.error ("cannot unmarshal element of " ++ k))
  | some _ => .error ("cannot unmarshal field " ++ k)

/-- Decode a `map[string]string` struct field. -/
def getStrMapField (fs : List (String × Json)) (k : String) :
    Except String (List (String × String)) :=
  match fieldLast fs k with
  | none => .ok []
  | some .null => .ok []
  | some (.obj fs') =>
    fs'.mapM (fun p => match p.2 with
      | .str s => Except.ok (p.1, s)
      | .null => Except.ok (p.1, "")
      | _ => Except.error ("cannot unmarshal element of " ++ k))
  | some _ => .error ("cannot unmarshal field " ++ k)

/-- Decode one `additionalMount` value. -/
def decodeMount : Json → Except String AdditionalMount
  | .null => .ok { path := "", mode := "" }
  | .obj fs => do
    let p ← getStrField fs "path"
    let m ← getStrField fs "mode"
    .ok { path := p, mode := m }
  | _ => .error "cannot unmarshal additionalMount"

/-- Decode a `map[string]additionalMount` struct field. -/
def getMountsField (fs : List (String × Json)) (k : String) :
    Except String (List (String × AdditionalMount)) :=
  match fieldLast fs k with
  | none => .ok []
  | some .null => .ok []
  | some (.obj fs') => fs'.mapM (fun p => (decodeMount p.2).map (fun m => (p.1, m)))
  | some _ => .error ("cannot unmarshal field " ++ k)

/-- Shared frame of every strict params decode: absent params are the nil
`RawMessage`, which `json.Unmarshal` rejects with `unexpected end of JSON
input`; a JSON `null` leaves the zero-valued struct; an object is decoded
field-wise; any other top-level shape is an unmarshal error. -/
def decodeParamsWith (zero : α) (f : List (String × Json) → Except String α) :
    Option Json → Except String α
  | none => .error "unexpected end of JSON input"
  | some .null => .ok zero
  | some (.obj fs) => f fs
  | some _ => .error "cannot unmarshal params"

/-- Decode `configureParams`. -/
def decodeConfigureParams : Option Json → Except String ConfigureParams :=
  decodeParamsWith { memory := 0, cpus := 0 } (fun fs => do
    let m ← getIntField fs "memory"
    let c ← getIntField fs "cpus"
    .ok { memory := m, cpus := c })

/-- Decode `vmNameParams`. -/
def decodeVmNameParams : Option Json → Except String VmNameParams :=
  decodeParamsWith { name := "" } (fun fs => do
    let n ← getStrField fs "name"
    .ok { name := n })

/-- Decode `spawnParams`. -/
def decodeSpawnParams : Option Json → Except String SpawnParams :=
  decodeParamsWith
    { name := "", id := "", cmd := "", args := [], env := [], cwd := "",
      additionalMounts := [] }
    (fun fs => do
      let n ← getStrField fs "name"
      let i ← getStrField fs "id"
      let c ← getStrField fs "command"
      let a ← getStrArrField fs "args"
      let e ← getStrMapField fs "env"
      let w ← getStrField fs "cwd"
      let mts ← getMountsField fs "additionalMounts"
      .ok { name := n, id := i, cmd := c, args := a, env := e, cwd := w,
            additionalMounts := mts })

/-- Decode `processIDParams` (reads only the `id` member). -/
def decodeProcessIDParams : Option Json → Except String ProcessIDParams :=
  decodeParamsWith { processID := "" } (fun fs => do
    let i ← getStrField fs "id"
    .ok { processID := i })

/-- Decode `writeStdinParams`. -/
def decodeWriteStdinParams : Option Json → Except String WriteStdinParams :=
  decodeParamsWith { processID := "", data := "" } (fun fs => do
    let i ← getStrField fs "id"
    let d ← getStrField fs "data"
    .ok { processID := i, data := d })

/-- Decode `mountPathParams`. -/
def decodeMountPathParams : Option Json → Except String MountPathParams :=
  decodeParamsWith { name := "", hostPath := "", guestPath := "" } (fun fs => do
    let n ← getStrField fs "name"
    let h ← getStrField fs "hostPath"
    let g ← getStrField fs "guestPath"
    .ok { name := n, hostPath := h, guestPath := g })

/-- Decode `readFileParams`. -/
def decodeReadFileParams : Option Json → Except String ReadFileParams :=
  decodeParamsWith { name := "", path := "" } (fun fs => do
    let n ← getStrField fs "name"
    let p ← getStrField fs "path"
    .ok { name := n, path := p })

/-- Decode `oauthTokenParams`. -/
def decodeOauthTokenParams : Option Json → Except String OauthTokenParams :=
  decodeParamsWith { name := "", token := "" } (fun fs => do
    let n ← getStrField fs "name"
    let t ← getStrField fs "token"
    .ok { name := n, token := t })

/-- Decode `debugLoggingParams`. -/
def decodeDebugLoggingParams : Option Json → Except String DebugLoggingParams :=
  decodeParamsWith { enabled := false } (fun fs => do
    let e ← getBoolField fs "enabled"
    .ok { enabled := e })

/-- The best-effort name extraction of `handleIsRunning`,
`handleIsGuestConnected` and `handleSubscribeEvents`: the unmarshal is only
attempted when params are present and its error is discarded, so the handler
proceeds with whatever landed in `p.Name` (the zero value on any failure). -/
def lenientName : Option Json → String
  | some (.obj fs) =>
    (match fieldLast fs "name" with
     | some (.str s) => s
     | _ => "")
  | _ => ""

/-! ### Backend contract and dispatch (src/pipe/server.go, src/pipe/handlers.go) -/

/-- Go `VMBackend` (src/pipe/server.go): the capability set of 17 operations the
dispatcher invokes.  Fallible operations return `Except String`, matching the
Go `error` results whose display string becomes the failure reply;
`subscribeEvents` abstracts the cancel handle away and `setDebugLogging`
returns nothing. -/
structure Backend where
  configure : Int → Int → Except String Unit
  createVM : String → Except String Unit
  startVM : String → Except String Unit
  stopVM : String → Except String Unit
  isRunning : String → Except String Bool
  isGuestConnected : String → Except String Bool
  spawn : String → String → String → List String → List (String × String) →
    String → List (String × String) → Except String String
  kill : String → Except String Unit
  writeStdin : String → String → Except String Unit
  isProcessRunning : String → Except String Bool
  mountPath : String → String → String → Except String Unit
  readFile : String → String → Except String String
  installSdk : String → Except String Unit
  addApprovedOauthToken : String → String → Except String Unit
  setDebugLogging : Bool → Unit
  subscribeEvents : String → Except String Unit
  getDownloadStatus : String

/-- Go `handleConfigure`. -/
def handleConfigure (b : Backend) (req : Request) : Reply :=
  match decodeConfigureParams req.params with
  | .error e => writeErr ("Invalid params: " ++ e)
  | .ok p =>
    match b.configure p.memory p.cpus with
    | .error e => writeErr e
    | .ok _ => writeResponse none

/-- Go `handleCreateVM`. -/
def handleCreateVM (b : Backend) (req : Request) : Reply :=
  match decodeVmNameParams req.params with
  | .error e => writeErr ("Invalid params: " ++ e)
  | .ok p =>
    match b.createVM p.name with
    | .error e => writeErr e
    | .ok _ => writeResponse none

/-- Go `handleStartVM`. -/
def handleStartVM (b : Backend) (req : Request) : Reply :=
  match decodeVmNameParams req.params with
  | .error e => writeErr ("Invalid params: " ++ e)
  | .ok p =>
    match b.startVM p.name with
    | .error e => writeErr e
    | .ok _ => writeResponse none

/-- Go `handleStopVM`. -/
def handleStopVM (b : Backend) (req : Request) : Reply :=
  match decodeVmNameParams req.params with
  | .error e => writeErr ("Invalid params: " ++ e)
  | .ok p =>
    match b.stopVM p.name with
    | .error e => writeErr e
    | .ok _ => writeResponse none

/-- Go `handleIsRunning`: the params unmarshal error is discarded. -/
def handleIsRunning (b : Backend) (req : Request) : Reply :=
  match b.isRunning (lenientName req.params) with
  | .error e => writeErr e
  | .ok r => writeResponse (some (.obj [("running", .bool r)]))

/-- Go `handleIsGuestConnected`: the params unmarshal error is discarded. -/
def handleIsGuestConnected (b : Backend) (req : Request) : Reply :=
  match b.isGuestConnected (lenientName req.params) with
  | .error e => writeErr e
  | .ok r => writeResponse (some (.obj [("connected", .bool r)]))

/-- Go `handleSpawn`: decodes params, keeps only the `path` member of each
additional mount, and replies with the assigned process id. -/
def handleSpawn (b : Backend) (req : Request) : Reply :=
  match decodeSpawnParams req.params with
  | .error e => writeErr ("Invalid params: " ++ e)
  | .ok p =>
    match b.spawn p.name p.id p.cmd p.args p.env p.cwd
        (p.additionalMounts.map (fun m => (m.1, m.2.path))) with
    | .error e => writeErr e
    | .ok pid => writeResponse (some (.obj [("id", .str pid)]))

/-- Go `handleKill`. -/
def handleKill (b : Backend) (req : Request) : Reply :=
  match decodeProcessIDParams req.params with
  | .error e => writeErr ("Invalid params: " ++ e)
  | .ok p =>
    match b.kill p.processID with
    | .error e => writeErr e
    | .ok _ => writeResponse none

/-- Go `handleWriteStdin`. -/
def handleWriteStdin (b : Backend) (req : Request) : Reply :=
  match decodeWriteStdinParams req.params with
  | .error e => writeErr ("Invalid params: " ++ e)
  | .ok p =>
    match b.writeStdin p.processID p.data with
    | .error e => writeErr e
    | .ok _ => writeResponse none

/-- Go `handleIsProcessRunning`. -/
def handleIsProcessRunning (b : Backend) (req : Request) : Reply :=
  match decodeProcessIDParams req.params with
  | .error e => writeErr ("Invalid params: " ++ e)
  | .ok p =>
    match b.isProcessRunning p.processID with
    | .error e => writeErr e
    | .ok r => writeResponse (some (.obj [("running", .bool r)]))

/-- Go `handleMountPath`. -/
def handleMountPath (b : Backend) (req : Request) : Reply :=
  match decodeMountPathParams req.params with
  | .error e => writeErr ("Invalid params: " ++ e)
  | .ok p =>
    match b.mountPath p.name p.hostPath p.guestPath with
    | .error e => writeErr e
    | .ok _ => writeResponse none

/-- Go `handleReadFile`. -/
def handleReadFile (b : Backend) (req : Request) : Reply :=
  match decodeReadFileParams req.params with
  | .error e => writeErr ("Invalid params: " ++ e)
  | .ok p =>
    match b.readFile p.name p.path with
    | .error e => writeErr e
    | .ok d => writeResponse (some (.obj [("data", .str d)]))

/-- Go `handleInstallSdk`. -/
def handleInstallSdk (b : Backend) (req : Request) : Reply :=
  match decodeVmNameParams req.params with
  | .error e => writeErr ("Invalid params: " ++ e)
  | .ok p =>
    match b.installSdk p.name with
    | .error e => writeErr e
    | .ok _ => writeResponse none

/-- Go `handleAddApprovedOauthToken`. -/
def handleAddApprovedOauthToken (b : Backend) (req : Request) : Reply :=
  match decodeOauthTokenParams req.params with
  | .error e => writeErr ("Invalid params: " ++ e)
  | .ok p =>
    match b.addApprovedOauthToken p.name p.token with
    | .error e => writeErr e
    | .ok _ => writeResponse none

/-- Go `handleSetDebugLogging`: the backend call cannot fail. -/
def handleSetDebugLogging (b : Backend) (req : Request) : Reply :=
  match decodeDebugLoggingParams req.params with
  | .error e => writeErr ("Invalid params: " ++ e)
  | .ok p =>
    let _ := b.setDebugLogging p.enabled
    writeResponse none

/-- Go `handleSubscribeEvents`: the params unmarshal error is discarded; on
success the initial acknowledgement is the first reply on the connection
(events are pushed afterwards by the subscription callback). -/
def handleSubscribeEvents (b : Backend) (req : Request) : Reply :=
  match b.subscribeEvents (lenientName req.params) with
  | .error e => writeErr e
  | .ok _ => writeResponse (some (.obj [("subscribed", .bool true)]))

/-- Go `handleGetDownloadStatus`: no params are read. -/
def handleGetDownloadStatus (b : Backend) (_req : Request) : Reply :=
  writeResponse (some (.obj [("status", .str b.getDownloadStatus)]))

/-- The `switch req.Method` of `Handle` (src/pipe/handlers.go): dispatch on
the method name to one of the 17 operations; unknown methods produce a
`Method not found` failure echoing the method string. -/
def dispatch (b : Backend) (req : Request) : Reply :=
  if req.method = "configure" then handleConfigure b req
  else if req.method = "createVM" then handleCreateVM b req
  else if req.method = "startVM" then handleStartVM b req
  else if req.method = "stopVM" then handleStopVM b req
  else if req.method = "isRunning" then handleIsRunning b req
  else if req.method = "isGuestConnected" then handleIsGuestConnected b req
  else if req.method = "spawn" then handleSpawn b req
  else if req.method = "kill" then handleKill b req
  else if req.method = "writeStdin" then handleWriteStdin b req
  else if req.method = "isProcessRunning" then handleIsProcessRunning b req
  else if req.method = "mountPath" then handleMountPath b req
  else if req.method = "readFile" then handleReadFile b req
  else if req.method = "installSdk" then handleInstallSdk b req
  else if req.method = "addApprovedOauthToken" then handleAddApprovedOauthToken b req
  else if req.method = "setDebugLogging" then handleSetDebugLogging b req
  else if req.method = "subscribeEvents" then handleSubscribeEvents b req
  else if req.method = "getDownloadStatus" then handleGetDownloadStatus b req
  else writeErr ("Method not found: " ++ req.method)

/-- The 17 method names the switch recognizes. -/
def methodNames : List String :=
  ["configure", "createVM", "startVM", "stopVM", "isRunning",
   "isGuestConnected", "spawn", "kill", "writeStdin", "isProcessRunning",
   "mountPath", "readFile", "installSdk", "addApprovedOauthToken",
   "setDebugLogging", "subscribeEvents", "getDownloadStatus"]

/-- Go `Handle` (src/pipe/handlers.go): decode the payload as a `Request`
(replying `Parse error` on failure, without echoing any id — `WriteError`
discards its id argument entirely), then dispatch on the method. -/
def Handle (b : Backend) (payload : Option Json) : Reply :=
  match decodeRequest payload with
  | .error _ => writeErr "Parse error"
  | .ok req => dispatch b req

/-- A concrete backend whose operations all succeed with fixed results, used
to evaluate the dispatcher on concrete frames. -/
def okBackend : Backend where
  configure _ _ := .ok ()
  createVM _ := .ok ()
  startVM _ := .ok ()
  stopVM _ := .ok ()
  isRunning _ := .ok false
  isGuestConnected _ := .ok false
  spawn _ _ _ _ _ _ _ := .ok "proc-1"
  kill _ := .ok ()
  writeStdin _ _ := .ok ()
  isProcessRunning _ := .ok true
  mountPath _ _ _ := .ok ()
  readFile _ _ := .ok "data"
  installSdk _ := .ok ()
  addApprovedOauthToken _ _ := .ok ()
  setDebugLogging _ := ()
  subscribeEvents _ := .ok ()
  getDownloadStatus := "Ready"

/-! ## Byte-buffer utilities

The supervisor rewrites stdin and output buffers with `bytes.ReplaceAll`
and tests `bytes.Contains`; buffers are modelled as `List Char`.  The
scanning recursions are written with an explicit fuel argument (always
called with the buffer length, which the scans never exceed) so that they
are structural. -/

/-- Scanning worker of `replaceAll`. -/
def replaceAllGo (old new : List Char) : Nat → List Char → List Char
  | _, [] => []
  | 0, s => s
  | fuel + 1, c :: rest =>
    if old ≠ [] ∧ old.isPrefixOf (c :: rest) then
      new ++ replaceAllGo old new fuel ((c :: rest).drop old.length)
    else
      c :: replaceAllGo old new fuel rest

/-- Go `bytes.ReplaceAll old new`: scan left to right, replace each leftmost,
non-overlapping occurrence of `old` by `new` and continue after it.  The
patterns the supervisor uses are never empty; an empty `old` is mapped to
the identity. -/
def replaceAll (old new s : List Char) : List Char :=
  replaceAllGo old new s.length s

/-- Go `replaceAll` on `String` values. -/
def replaceAllStr (old new s : String) : String :=
  String.mk (replaceAll old.data new.data s.data)

/-- Go `bytes.Contains hay needle`. -/
def containsSub (needle : List Char) : List Char → Bool
  | [] => needle.isEmpty
  | c :: rest => needle.isPrefixOf (c :: rest) || containsSub needle rest

/-! ## Event types (src/process/events.go) -/

/-- The events the supervisor emits. -/
inductive Event where
  | stdout (id : String) (data : String) : Event
  | stderr (id : String) (data : String) : Event
  | exit (id : String) (exitCode : Int) (signal : Option String) : Event
  | errorEvent (id : String) (message : String) (fatal : Bool) : Event

/-- The `type` member each event serializes with. -/
def eventType : Event → String
  | .stdout _ _ => "stdout"
  | .stderr _ _ => "stderr"
  | .exit _ _ _ => "exit"
  | .errorEvent _ _ _ => "error"

/-- Go `NewStdoutEvent` (src/process/events.go). -/
def NewStdoutEvent (processID data : String) : Event :=
  .stdout processID data

/-- Go `NewErrorEvent` (src/process/events.go). -/
def NewErrorEvent (processID message : String) (fatal : Bool) : Event :=
  .errorEvent processID message fatal

/-- Go `NewExitEvent` (src/process/events.go). -/
def NewExitEvent (processID : String) (code : Int) : Event :=
  .exit processID code none

/-- Go `NewExitEventWithSignal` (src/process/events.go). -/
def NewExitEventWithSignal (processID : String) (code : Int) (signal : String) : Event :=
  .exit processID code (some signal)

/-! ## Process supervisor (src/native/process.go) -/

/-- Go `pathRemap`: a byte replacement pair (source fields `from` and `to`,
named `src` and `dst` here because `from` is reserved in Lean). -/
structure PathRemap where
  src : List Char
  dst : List Char

/-- Go `localProcess`: the per-process record.  `prefixPair` is `some` with
`src` the `vmPrefix` and `dst` the `realPrefix` exactly when `spawn` set
both byte slices (non-nil); `doneSet` is the state of the completion latch
(the `done` channel); `hasProcess` models `cmd.Process != nil`. -/
structure LocalProc where
  id : String
  prefixPair : Option PathRemap
  reverseMap : Bool
  mountRemap : List PathRemap
  doneSet : Bool
  hasProcess : Bool
  pid : Nat

/-- Reverse path remapping of one output line (`streamOutput`): when
enabled for the process, every occurrence of `realPrefix` is replaced by
`vmPrefix`. -/
def reverseMapLine (lp : Option LocalProc) (line : String) : String :=
  match lp with
  | some l =>
    if l.reverseMap then
      match l.prefixPair with
      | some pr => replaceAllStr pr.dst.asString pr.src.asString line
      | none => line
    else line
  | none => line

/-- Go `streamOutput` (src/native/process.go): the events one output-reader
goroutine emits, given the lines its scanner produced (`lines`), whether
the scanner finally failed (`scanErr`), and which stream it reads
(`streamName`, either `stdout` or `stderr`).  Each line gets a trailing
newline appended, is then reverse-remapped when enabled, and is emitted as
a single `stdout`-typed event regardless of the stream; a scanner failure
appends one non-fatal `error` event. -/
def streamOutput (id : String) (lp : Option LocalProc) (lines : List String)
    (scanErr : Option String) (streamName : String) : List Event :=
  (lines.map (fun t => NewStdoutEvent id (reverseMapLine lp (t ++ "\n"))))
    ++ (match scanErr with
        | some e => [NewErrorEvent id (streamName ++ " scanner error: " ++ e) false]
        | none => [])

/-! ### Skill plugin-prefix stripping (`writeStdin`, src/native/process.go) -/

/-- The literal marker tested with `bytes.Contains`: a quote, the word
content, a quote, a colon, a quote and a slash. -/
def skillMarker : List Char :=
  String.data "\"content\":\"/"

/-- The character class `a-zA-Z0-9`, underscore, hyphen of the substitution
pattern. -/
def isWordChar (c : Char) : Bool :=
  ('a' ≤ c && c ≤ 'z') || ('A' ≤ c && c ≤ 'Z') || ('0' ≤ c && c ≤ '9')
    || c = '_' || c = '-'

/-- Match of the regular expression (the marker, then one or more class
characters, then a colon) at the start of `s`: returns the suffix after the
match.  The class excludes the colon, so the matched run is exactly the
maximal class run, which must be non-empty and followed by a colon. -/
def matchRest (s : List Char) : Option (List Char) :=
  if skillMarker.isPrefixOf s then
    let after := s.drop skillMarker.length
    let run := after.takeWhile isWordChar
    match after.drop run.length with
    | c :: tail => if c = ':' ∧ run ≠ [] then some tail else none
    | [] => none
  else none

/-- Scanning worker of `replaceRe`. -/
def replaceReGo : Nat → List Char → List Char
  | _, [] => []
  | 0, s => s
  | fuel + 1, c :: rest =>
    match matchRest (c :: rest) with
    | some r => skillMarker ++ replaceReGo fuel r
    | none => c :: replaceReGo fuel rest

/-- The `regexp.ReplaceAll` of `writeStdin`: each leftmost, non-overlapping
match of the pattern is replaced by the bare marker and scanning resumes
after the match. -/
def replaceRe (s : List Char) : List Char :=
  replaceReGo s.length s

/-- Go `re.Match`: does the pattern match anywhere in the buffer? -/
def reMatches : List Char → Bool
  | [] => false
  | c :: rest => (matchRest (c :: rest)).isSome || reMatches rest

/-- The stripping block of `writeStdin`: only applied when the buffer
contains the marker and the pattern matches somewhere (`re.Match`);
otherwise the buffer passes through unchanged. -/
def stripSkill (data : List Char) : List Char :=
  if containsSub skillMarker data then
    if reMatches data then replaceRe data else data
  else data

/-! ### `writeStdin` (src/native/process.go) -/

/-- The full stdin transformation of `writeStdin`: forward path remap
(`vmPrefix` to `realPrefix` when set), then each additional mount remap in
order, then the skill plugin-prefix stripping. -/
def stdinTransform (lp : LocalProc) (data : List Char) : List Char :=
  let d1 := match lp.prefixPair with
    | some pr => replaceAll pr.src pr.dst data
    | none => data
  let d2 := lp.mountRemap.foldl (fun d rm => replaceAll rm.src rm.dst d) d1
  stripSkill d2

/-- Outcome of the race in `writeStdin`'s final `select`: the write
goroutine finished first (with the write's error result), the completion
latch fired first, or the 10-second timer fired first. -/
inductive WriteRace where
  | completed (res : Option String) : WriteRace
  | exitedDuring : WriteRace
  | timedOut : WriteRace

/-- The stdin write timeout in seconds (`time.After(10 * time.Second)`). -/
def stdinWriteTimeoutSec : Nat := 10

/-- Go `writeStdin` (src/native/process.go): look up the record (unknown ids
fail), transform the bytes, fail if the completion latch is already set,
then resolve the three-way race; on success the transformed bytes are the
ones handed to the child's stdin. -/
def writeStdinProc (procs : List (String × LocalProc)) (processID : String)
    (data : List Char) (race : WriteRace) : Except String (List Char) :=
  match (procs.find? (fun p => p.1 = processID)).map (fun p => p.2) with
  | none => .error ("process " ++ processID ++ " not found")
  | some lp =>
    let d := stdinTransform lp data
    if lp.doneSet then .error ("process " ++ processID ++ " has exited")
    else
      match race with
      | .completed none => .ok d
      | .completed (some e) => .error e
      | .exitedDuring => .error ("process " ++ processID ++ " exited during write")
      | .timedOut => .error ("stdin write timeout for process " ++ processID)

/-! ### Signals and `kill` (src/native/process.go) -/

/-- The signals `mapSignal` can produce. -/
inductive Signal where
  | SIGTERM : Signal
  | SIGKILL : Signal
  | SIGINT : Signal
  | SIGQUIT : Signal
  | SIGHUP : Signal
  | SIGUSR1 : Signal
  | SIGUSR2 : Signal
deriving DecidableEq, Repr

/-- Go `strings.ToUpper` restricted to ASCII (signal names are ASCII). -/
def asciiUpper (s : String) : String :=
  String.mk (s.data.map (fun c =>
    if 'a' ≤ c ∧ c ≤ 'z' then Char.ofNat (c.toNat - 32) else c))

/-- Go `strings.TrimPrefix s pre`. -/
def trimPrefixStr (s pre : String) : String :=
  if pre.data.isPrefixOf s.data then String.mk (s.data.drop pre.data.length) else s

/-- Go `mapSignal` (src/native/process.go): uppercase, strip a leading `SIG`,
translate the recognized names; the empty string and every unrecognized
name fall through to `SIGTERM`. -/
def mapSignal (name : String) : Signal :=
  let u := asciiUpper (trimPrefixStr (asciiUpper name) "SIG")
  if u = "KILL" then .SIGKILL
  else if u = "INT" then .SIGINT
  else if u = "QUIT" then .SIGQUIT
  else if u = "HUP" then .SIGHUP
  else if u = "USR1" then .SIGUSR1
  else if u = "USR2" then .SIGUSR2
  else .SIGTERM

/-- Where a kill lands: the whole process group (`syscall.Kill(-pgid, sig)`)
or, when `Getpgid` failed, the process alone (`Process.Signal(sig)`). -/
inductive KillTarget where
  | group (pgid : Nat) : KillTarget
  | process (pid : Nat) : KillTarget
deriving DecidableEq, Repr

/-- The signal delivery a `kill` call performs. -/
structure KillAction where
  target : KillTarget
  signal : Signal
deriving DecidableEq, Repr

/-- Go `kill` (src/native/process.go): look up the record (unknown ids fail),
return without delivery when the process handle is nil, otherwise deliver
`mapSignal signal` to the process group (or to the process alone when the
`Getpgid` system call, whose result is the `pgidResult` argument, failed). -/
def ptKill (procs : List (String × LocalProc)) (processID : String)
    (signal : String) (pgidResult : Option Nat) : Except String (Option KillAction) :=
  match (procs.find? (fun p => p.1 = processID)).map (fun p => p.2) with
  | none => .error ("process " ++ processID ++ " not found")
  | some lp =>
    if lp.hasProcess = false then .ok none
    else
      let sig := mapSignal signal
      match pgidResult with
      | some pgid => .ok (some { target := .group pgid, signal := sig })
      | none => .ok (some { target := .process lp.pid, signal := sig })

/-- Modelled from the spec: the native backend's `Kill` wrapper (the file
implementing `pipe.VMBackend` over the host-native `processTracker` is not
part of the sources).  The interface's `Kill(processID string)` carries no
signal, and §4.3 states that an absent or empty `signal` means `SIGTERM`,
so the wrapper invokes the supervisor's kill with the empty signal name. -/
def managerKill (procs : List (String × LocalProc)) (processID : String)
    (pgidResult : Option Nat) : Except String (Option KillAction) :=
  ptKill procs processID "" pgidResult

/-- The full client-initiated kill path: `handleKill` decodes only the `id`
member of the params into `processIDParams`, then invokes the backend's
`Kill` with that process id alone. -/
def clientKill (procs : List (String × LocalProc)) (params : Option Json)
    (pgidResult : Option Nat) : Except String (Option KillAction) :=
  match decodeProcessIDParams params with
  | .error e => .error ("Invalid params: " ++ e)
  | .ok p => managerKill procs p.processID pgidResult

/-! ### Child environment construction (`spawn`, src/native/process.go) -/

/-- The scrubbing loop of `spawn`: every entry whose variable name is
`CLAUDECODE` or `CLAUDE_CODE_ENTRYPOINT` is removed (the Go loop matches on
the `NAME=` prefix of the entry string, which is exactly a name match). -/
def stripClaudeVars (env : List (String × String)) : List (String × String) :=
  env.filter (fun p => !(p.1 = "CLAUDECODE" || p.1 = "CLAUDE_CODE_ENTRYPOINT"))

/-- The environment slice `spawn` hands to the OS: when the caller's map is
non-empty, the supervisor's own environment (`cmd.Environ()`, modelled as
`osEnv`) followed by the caller's entries; otherwise the supervisor's
environment alone (`os.Environ()`); then the scrubbing loop runs. -/
def buildChildEnv (osEnv callerEnv : List (String × String)) :
    List (String × String) :=
  stripClaudeVars (if callerEnv.isEmpty then osEnv else osEnv ++ callerEnv)

/-- The effective value of a variable in an environment slice: Go's
`exec.Cmd` deduplicates the slice keeping the last occurrence of each name,
so the last entry wins. -/
def envValue : List (String × String) → String → Option String
  | [], _ => none
  | p :: rest, n =>
    match envValue rest n with
    | some v => some v
    | none => if p.1 = n then some p.2 else none

/-! ### Process identity (`spawn`, src/native/process.go) -/

/-- Decimal digits of a natural number, most significant first. -/
def toDigits (n : Nat) : List Nat :=
  if _h : n < 10 then [n] else toDigits (n / 10) ++ [n % 10]
termination_by n
decreasing_by
  exact Nat.div_lt_self (by omega) (by omega)

/-- The value a digit list denotes. -/
def ofDigits (l : List Nat) : Nat :=
  l.foldl (fun acc d => acc * 10 + d) 0

/-- A decimal digit as a character. -/
def digitChar (d : Nat) : Char :=
  Char.ofNat (48 + d)

/-- Decimal rendering of a natural number (the `%d` of
`fmt.Sprintf("proc-%d", ...)`). -/
def natToStr (n : Nat) : String :=
  String.mk ((toDigits n).map digitChar)

/-- The generated process id `proc-N`. -/
def procName (n : Nat) : String :=
  "proc-" ++ natToStr n

/-- One entry of the (ghost) spawn history: the assigned id, a serial
handle distinguishing the underlying OS process, and the counter value the
id was generated from (`none` when the caller supplied the id). -/
structure SpawnEntry where
  id : String
  handle : Nat
  genCounter : Option Nat
deriving DecidableEq, Repr

/-- The identity-relevant state of `processTracker`: the `nextID` counter,
a serial count of spawns performed, the `processes` registry (a Go map:
assignment overwrites), and the spawn history. -/
structure TrackerState where
  nextID : Nat
  spawnCount : Nat
  registry : List (String × Nat)
  spawnLog : List SpawnEntry

/-- Go map assignment `processes[id] = lp`. -/
def registryInsert (reg : List (String × Nat)) (id : String) (handle : Nat) :
    List (String × Nat) :=
  (reg.filter (fun p => p.1 ≠ id)) ++ [(id, handle)]

/-- The identity assignment and registration of one `spawn` call: an empty
caller id draws `proc-N` from the incremented counter, a non-empty caller
id is used verbatim; the new process (a fresh handle) is stored in the
registry under that id, overwriting any existing entry. -/
def spawnStep (st : TrackerState) (callerID : String) : String × TrackerState :=
  let gen := callerID = ""
  let newNext := if gen then st.nextID + 1 else st.nextID
  let id := if gen then procName newNext else callerID
  (id,
   { nextID := newNext,
     spawnCount := st.spawnCount + 1,
     registry := registryInsert st.registry id st.spawnCount,
     spawnLog := st.spawnLog ++
       [{ id := id, handle := st.spawnCount,
          genCounter := if gen then some newNext else none }] })

/-- A sequence of `spawn` calls with the given caller ids. -/
def runSpawns (st : TrackerState) : List String → TrackerState
  | [] => st
  | c :: cs => runSpawns (spawnStep st c).2 cs

/-- The tracker state at daemon start. -/
def initialTracker : TrackerState :=
  { nextID := 0, spawnCount := 0, registry := [], spawnLog := [] }


/-- A two-process registry used to evaluate the supervisor operations: a
live process `p1` and an already-reaped process `p2`, neither with any path
remapping configured. -/
def sampleProcs : List (String × LocalProc) :=
  [("p1", { id := "p1", prefixPair := none, reverseMap := false,
            mountRemap := [], doneSet := false, hasProcess := true,
            pid := 1 }),
   ("p2", { id := "p2", prefixPair := none, reverseMap := false,
            mountRemap := [], doneSet := true, hasProcess := true,
            pid := 2 })]


/-- The counter values of the generated ids in the spawn history, in spawn
order. -/
def genCounters (st : TrackerState) : List Nat :=
  st.spawnLog.filterMap (fun e => e.genCounter)

/-- The identity invariant the tracker maintains: every generated entry's id
is `proc-N` for its counter value, all drawn counter values are bounded by
the current counter, and the drawn counter values are strictly increasing
in spawn order. -/
def trackerInv (st : TrackerState) : Prop :=
  (∀ e ∈ st.spawnLog, ∀ n, e.genCounter = some n → e.id = procName n) ∧
  (∀ n ∈ genCounters st, n ≤ st.nextID) ∧
  (genCounters st).Pairwise (· < ·)

/-! ## Theorems -/

/-! ### Frame codec theorems -/

theorem be32_length (n : Nat) : (be32 n).length = 4 := rfl

theorem be32dec_be32 (n : Nat) (h : n < 2 ^ 32) :
    be32dec (n / 2 ^ 24 % 256) (n / 2 ^ 16 % 256) (n / 2 ^ 8 % 256) (n % 256) = n := by
  unfold be32dec
  omega

/-- C2: round-trip and rejection behaviour of the frame codec. -/
theorem frame_roundtrip
    (s rest : List Nat) (h1 : 1 ≤ s.length) (h2 : s.length ≤ maxMessageSize) :
    ReadMessage (frameBytes s ++ rest) = .ok (s, rest) := by
  have hlt : s.length < 2 ^ 32 := by
    have : maxMessageSize < 2 ^ 32 := by decide
    omega
  have hmod : s.length % 2 ^ 32 = s.length := Nat.mod_eq_of_lt hlt
  unfold frameBytes be32
  rw [hmod]
  simp only [List.cons_append, List.nil_append, ReadMessage]
  rw [be32dec_be32 s.length hlt]
  have hne : ¬ s.length = 0 := by omega
  have hle : ¬ s.length > maxMessageSize := by omega
  have hlen : ¬ (s ++ rest).length < s.length := by
    simp [List.length_append]
  simp only [hne, hle, hlen, if_false]
  rw [List.take_left, List.drop_left]

theorem read_zero_length (rest : List Nat) :
    ReadMessage (be32 0 ++ rest) = .error .zeroLength := by
  simp [be32, ReadMessage, be32dec]

theorem read_too_large (n : Nat) (rest : List Nat)
    (hgt : n > maxMessageSize) (hlt : n < 2 ^ 32) :
    ReadMessage (be32 n ++ rest) = .error (.tooLarge n) := by
  unfold be32
  simp only [List.cons_append, List.nil_append, ReadMessage]
  rw [be32dec_be32 n hlt]
  have hne : ¬ n = 0 := by
    have : maxMessageSize > 0 := by decide
    omega
  simp [hne, hgt]

theorem read_short_header (stream : List Nat) (h : stream.length < 4) :
    ReadMessage stream = .error .shortHeader := by
  match stream with
  | [] => rfl
  | [_] => rfl
  | [_, _] => rfl
  | [_, _, _] => rfl
  | _ :: _ :: _ :: _ :: _ =>
    simp only [List.length_cons] at h
    omega

theorem read_short_payload (n : Nat) (rest : List Nat)
    (h1 : 1 ≤ n) (h2 : n ≤ maxMessageSize) (h3 : rest.length < n) :
    ReadMessage (be32 n ++ rest) = .error (.shortPayload n) := by
  have hlt : n < 2 ^ 32 := by
    have : maxMessageSize < 2 ^ 32 := by decide
    omega
  unfold be32
  simp only [List.cons_append, List.nil_append, ReadMessage]
  rw [be32dec_be32 n hlt]
  have hne : ¬ n = 0 := by omega
  have hle : ¬ n > maxMessageSize := by omega
  simp [hne, hle, h3]

/-- C2: for every byte string `s` with `1 ≤ |s| ≤ 10·2²⁰`, reading the stream
produced by `WriteMessage s` yields exactly `s` (with any trailing stream
preserved); `ReadMessage` fails when the declared length is `0`, when it
exceeds `10·2²⁰` bytes, when the stream ends before the 4-byte header, and
when it ends before the declared number of payload bytes. -/
theorem c2_frame_codec :
    (∀ s rest : List Nat, 1 ≤ s.length → s.length ≤ 10 * 2 ^ 20 →
      ReadMessage (frameBytes s ++ rest) = .ok (s, rest)) ∧
    (∀ rest : List Nat, ReadMessage (be32 0 ++ rest) = .error .zeroLength) ∧
    (∀ (n : Nat) (rest : List Nat), n > 10 * 2 ^ 20 → n < 2 ^ 32 →
      ReadMessage (be32 n ++ rest) = .error (.tooLarge n)) ∧
    (∀ stream : List Nat, stream.length < 4 →
      ReadMessage stream = .error .shortHeader) ∧
    (∀ (n : Nat) (rest : List Nat), 1 ≤ n → n ≤ 10 * 2 ^ 20 → rest.length < n →
      ReadMessage (be32 n ++ rest) = .error (.shortPayload n)) := by
  have hmax : maxMessageSize = 10 * 2 ^ 20 := by decide
  refine ⟨?_, read_zero_length, ?_, read_short_header, ?_⟩
  · intro s rest h1 h2
    exact frame_roundtrip s rest h1 (by omega)
  · intro n rest hgt hlt
    exact read_too_large n rest (by omega) hlt
  · intro n rest h1 h2 h3
    exact read_short_payload n rest h1 (by omega) h3

/-- Witness for `c2_frame_codec` at concrete inputs: the round trip on
`[7, 8]`, the zero-length rejection, an oversized declared length of
`10·2²⁰ + 1`, a two-byte stream ending mid-header, and a declared length of
`3` with only two payload bytes available. -/
theorem c2_frame_codec_witness :
    ReadMessage (frameBytes [7, 8] ++ [9]) = .ok ([7, 8], [9]) ∧
    ReadMessage (be32 0 ++ [1]) = .error .zeroLength ∧
    ReadMessage (be32 (10 * 2 ^ 20 + 1) ++ []) = .error (.tooLarge (10 * 2 ^ 20 + 1)) ∧
    ReadMessage [0, 0] = .error .shortHeader ∧
    ReadMessage (be32 3 ++ [1, 2]) = .error (.shortPayload 3) :=
  ⟨c2_frame_codec.1 [7, 8] [9] (by decide) (by decide),
   c2_frame_codec.2.1 [1],
   c2_frame_codec.2.2.1 (10 * 2 ^ 20 + 1) [] (by decide) (by decide),
   c2_frame_codec.2.2.2.1 [0, 0] (by decide),
   c2_frame_codec.2.2.2.2 3 [1, 2] (by decide) (by decide) (by decide)⟩

/-- C3: each `WriteMessage` call issues exactly one write on the underlying
connection, whose content is the 4-byte big-endian payload length followed by
the payload; consequently, when several concurrent writers each emit a frame
with a single atomic write, every frame appears contiguously in the bytes
that reach the wire, in whatever order the writes were scheduled. -/
theorem c3_single_write :
    (∀ data : List Nat, writeMessageWrites data = [frameBytes data]) ∧
    (∀ (ds ws : List (List Nat)), ws.Perm (ds.map frameBytes) →
      ∀ d ∈ ds, (frameBytes d).IsInfix ws.flatten) := by
  refine ⟨fun _ => rfl, fun ds ws hperm d hd => ?_⟩
  have hmem : frameBytes d ∈ ws :=
    hperm.symm.subset (List.mem_map_of_mem frameBytes hd)
  exact List.infix_of_mem_flatten hmem

/-- Witness for `c3_single_write`: two payloads `[1]` and `[2, 3]` written by
two concurrent writers whose single writes land in reversed order still put
each complete frame contiguously on the wire. -/
theorem c3_single_write_witness :
    writeMessageWrites [1] = [frameBytes [1]] ∧
    (frameBytes [1]).IsInfix
      ([frameBytes [2, 3], frameBytes [1]] : List (List Nat)).flatten :=
  ⟨c3_single_write.1 [1],
   c3_single_write.2 [[1], [2, 3]] [frameBytes [2, 3], frameBytes [1]]
     (by decide) [1] (by decide)⟩

/-! ### Dispatcher theorems -/

/-- C1 counterexample: the claim asserts that all 17 operations reply
`Invalid params` when their params fail to decode, but `handleIsRunning`
discards the unmarshal error: params `5` do not decode as `vmNameParams`,
yet the reply is a success. -/
theorem c1_counterexample :
    decodeVmNameParams (some (Json.num 5)) = .error "cannot unmarshal params" ∧
    Handle okBackend
        (some (.obj [("method", .str "isRunning"), ("params", .num 5)]))
      = { success := true, result := some (.obj [("running", .bool false)]),
          error := "" } :=
  ⟨rfl, rfl⟩

/-- C1 (amended): payloads that do not decode as a request are answered with
`Parse error` and no echoed id (the failure reply carries no id field at
all); decoded requests are dispatched on the method, unknown methods are
answered `Method not found: <m>`; the 13 operations that decode their params
strictly reply `Invalid params: <detail>` when the decode fails; `isRunning`,
`isGuestConnected` and `subscribeEvents` discard params decode errors and
proceed with the leniently extracted name. -/
theorem c1_dispatch_error_handling :
    (∀ (b : Backend) (payload : Option Json) (e : String),
      decodeRequest payload = .error e → Handle b payload = writeErr "Parse error") ∧
    (∀ (b : Backend) (payload : Option Json) (req : Request),
      decodeRequest payload = .ok req → Handle b payload = dispatch b req) ∧
    (∀ (b : Backend) (req : Request), req.method ∉ methodNames →
      dispatch b req = writeErr ("Method not found: " ++ req.method)) ∧
    (∀ (b : Backend) (ps i : Option Json) (e : String),
      decodeConfigureParams ps = .error e →
      dispatch b ⟨"configure", ps, i⟩ = writeErr ("Invalid params: " ++ e)) ∧
    (∀ (b : Backend) (ps i : Option Json) (e : String),
      decodeVmNameParams ps = .error e →
      dispatch b ⟨"createVM", ps, i⟩ = writeErr ("Invalid params: " ++ e)) ∧
    (∀ (b : Backend) (ps i : Option Json) (e : String),
      decodeVmNameParams ps = .error e →
      dispatch b ⟨"startVM", ps, i⟩ = writeErr ("Invalid params: " ++ e)) ∧
    (∀ (b : Backend) (ps i : Option Json) (e : String),
      decodeVmNameParams ps = .error e →
      dispatch b ⟨"stopVM", ps, i⟩ = writeErr ("Invalid params: " ++ e)) ∧
    (∀ (b : Backend) (ps i : Option Json) (e : String),
      decodeSpawnParams ps = .error e →
      dispatch b ⟨"spawn", ps, i⟩ = writeErr ("Invalid params: " ++ e)) ∧
    (∀ (b : Backend) (ps i : Option Json) (e : String),
      decodeProcessIDParams ps = .error e →
      dispatch b ⟨"kill", ps, i⟩ = writeErr ("Invalid params: " ++ e)) ∧
    (∀ (b : Backend) (ps i : Option Json) (e : String),
      decodeWriteStdinParams ps = .error e →
      dispatch b ⟨"writeStdin", ps, i⟩ = writeErr ("Invalid params: " ++ e)) ∧
    (∀ (b : Backend) (ps i : Option Json) (e : String),
      decodeProcessIDParams ps = .error e →
      dispatch b ⟨"isProcessRunning", ps, i⟩ = writeErr ("Invalid params: " ++ e)) ∧
    (∀ (b : Backend) (ps i : Option Json) (e : String),
      decodeMountPathParams ps = .error e →
      dispatch b ⟨"mountPath", ps, i⟩ = writeErr ("Invalid params: " ++ e)) ∧
    (∀ (b : Backend) (ps i : Option Json) (e : String),
      decodeReadFileParams ps = .error e →
      dispatch b ⟨"readFile", ps, i⟩ = writeErr ("Invalid params: " ++ e)) ∧
    (∀ (b : Backend) (ps i : Option Json) (e : String),
      decodeVmNameParams ps = .error e →
      dispatch b ⟨"installSdk", ps, i⟩ = writeErr ("Invalid params: " ++ e)) ∧
    (∀ (b : Backend) (ps i : Option Json) (e : String),
      decodeOauthTokenParams ps = .error e →
      dispatch b ⟨"addApprovedOauthToken", ps, i⟩ = writeErr ("Invalid params: " ++ e)) ∧
    (∀ (b : Backend) (ps i : Option Json) (e : String),
      decodeDebugLoggingParams ps = .error e →
      dispatch b ⟨"setDebugLogging", ps, i⟩ = writeErr ("Invalid params: " ++ e)) ∧
    (∀ (b : Backend) (ps i : Option Json),
      dispatch b ⟨"isRunning", ps, i⟩ = handleIsRunning b ⟨"isRunning", ps, i⟩) ∧
    (∀ (b : Backend) (ps i : Option Json),
      dispatch b ⟨"isGuestConnected", ps, i⟩
        = handleIsGuestConnected b ⟨"isGuestConnected", ps, i⟩) ∧
    (∀ (b : Backend) (ps i : Option Json),
      dispatch b ⟨"subscribeEvents", ps, i⟩
        = handleSubscribeEvents b ⟨"subscribeEvents", ps, i⟩) := by
  refine ⟨?_, ?_, ?_, ?_, ?_, ?_, ?_, ?_, ?_, ?_, ?_, ?_, ?_, ?_, ?_, ?_,
    fun b ps i => rfl, fun b ps i => rfl, fun b ps i => rfl⟩
  · intro b payload e h
    unfold Handle
    rw [h]
  · intro b payload req h
    unfold Handle
    rw [h]
  · intro b req h
    simp only [methodNames, List.mem_cons, List.not_mem_nil, or_false,
      not_or] at h
    obtain ⟨h1, h2, h3, h4, h5, h6, h7, h8, h9, h10, h11, h12, h13, h14, h15,
      h16, h17⟩ := h
    unfold dispatch
    rw [if_neg h1, if_neg h2, if_neg h3, if_neg h4, if_neg h5, if_neg h6,
      if_neg h7, if_neg h8, if_neg h9, if_neg h10, if_neg h11, if_neg h12,
      if_neg h13, if_neg h14, if_neg h15, if_neg h16, if_neg h17]
  · intro b ps i e h
    show handleConfigure b ⟨"configure", ps, i⟩ = _
    unfold handleConfigure
    rw [h]
  · intro b ps i e h
    show handleCreateVM b ⟨"createVM", ps, i⟩ = _
    unfold handleCreateVM
    rw [h]
  · intro b ps i e h
    show handleStartVM b ⟨"startVM", ps, i⟩ = _
    unfold handleStartVM
    rw [h]
  · intro b ps i e h
    show handleStopVM b ⟨"stopVM", ps, i⟩ = _
    unfold handleStopVM
    rw [h]
  · intro b ps i e h
    show handleSpawn b ⟨"spawn", ps, i⟩ = _
    unfold handleSpawn
    rw [h]
  · intro b ps i e h
    show handleKill b ⟨"kill", ps, i⟩ = _
    unfold handleKill
    rw [h]
  · intro b ps i e h
    show handleWriteStdin b ⟨"writeStdin", ps, i⟩ = _
    unfold handleWriteStdin
    rw [h]
  · intro b ps i e h
    show handleIsProcessRunning b ⟨"isProcessRunning", ps, i⟩ = _
    unfold handleIsProcessRunning
    rw [h]
  · intro b ps i e h
    show handleMountPath b ⟨"mountPath", ps, i⟩ = _
    unfold handleMountPath
    rw [h]
  · intro b ps i e h
    show handleReadFile b ⟨"readFile", ps, i⟩ = _
    unfold handleReadFile
    rw [h]
  · intro b ps i e h
    show handleInstallSdk b ⟨"installSdk", ps, i⟩ = _
    unfold handleInstallSdk
    rw [h]
  · intro b ps i e h
    show handleAddApprovedOauthToken b ⟨"addApprovedOauthToken", ps, i⟩ = _
    unfold handleAddApprovedOauthToken
    rw [h]
  · intro b ps i e h
    show handleSetDebugLogging b ⟨"setDebugLogging", ps, i⟩ = _
    unfold handleSetDebugLogging
    rw [h]

/-- Witness for `c1_dispatch_error_handling` at concrete inputs: invalid
payload bytes, a valid `kill` request, the unknown method `frobnicate`, and
each strict operation invoked with absent params (the nil `RawMessage`,
whose decode detail is `unexpected end of JSON input`). -/
theorem c1_dispatch_error_handling_witness :
    Handle okBackend none = writeErr "Parse error" ∧
    Handle okBackend (some (.obj [("method", .str "kill")]))
      = dispatch okBackend ⟨"kill", none, none⟩ ∧
    dispatch okBackend ⟨"frobnicate", none, none⟩
      = writeErr "Method not found: frobnicate" ∧
    dispatch okBackend ⟨"configure", none, none⟩
      = writeErr "Invalid params: unexpected end of JSON input" ∧
    dispatch okBackend ⟨"createVM", none, none⟩
      = writeErr "Invalid params: unexpected end of JSON input" ∧
    dispatch okBackend ⟨"startVM", none, none⟩
      = writeErr "Invalid params: unexpected end of JSON input" ∧
    dispatch okBackend ⟨"stopVM", none, none⟩
      = writeErr "Invalid params: unexpected end of JSON input" ∧
    dispatch okBackend ⟨"spawn", none, none⟩
      = writeErr "Invalid params: unexpected end of JSON input" ∧
    dispatch okBackend ⟨"kill", none, none⟩
      = writeErr "Invalid params: unexpected end of JSON input" ∧
    dispatch okBackend ⟨"writeStdin", none, none⟩
      = writeErr "Invalid params: unexpected end of JSON input" ∧
    dispatch okBackend ⟨"isProcessRunning", none, none⟩
      = writeErr "Invalid params: unexpected end of JSON input" ∧
    dispatch okBackend ⟨"mountPath", none, none⟩
      = writeErr "Invalid params: unexpected end of JSON input" ∧
    dispatch okBackend ⟨"readFile", none, none⟩
      = writeErr "Invalid params: unexpected end of JSON input" ∧
    dispatch okBackend ⟨"installSdk", none, none⟩
      = writeErr "Invalid params: unexpected end of JSON input" ∧
    dispatch okBackend ⟨"addApprovedOauthToken", none, none⟩
      = writeErr "Invalid params: unexpected end of JSON input" ∧
    dispatch okBackend ⟨"setDebugLogging", none, none⟩
      = writeErr "Invalid params: unexpected end of JSON input" :=
  ⟨c1_dispatch_error_handling.1 okBackend none "invalid JSON" rfl,
   c1_dispatch_error_handling.2.1 okBackend
     (some (.obj [("method", .str "kill")])) ⟨"kill", none, none⟩ rfl,
   c1_dispatch_error_handling.2.2.1 okBackend ⟨"frobnicate", none, none⟩
     (by decide),
   c1_dispatch_error_handling.2.2.2.1 okBackend none none _ rfl,
   c1_dispatch_error_handling.2.2.2.2.1 okBackend none none _ rfl,
   c1_dispatch_error_handling.2.2.2.2.2.1 okBackend none none _ rfl,
   c1_dispatch_error_handling.2.2.2.2.2.2.1 okBackend none none _ rfl,
   c1_dispatch_error_handling.2.2.2.2.2.2.2.1 okBackend none none _ rfl,
   c1_dispatch_error_handling.2.2.2.2.2.2.2.2.1 okBackend none none _ rfl,
   c1_dispatch_error_handling.2.2.2.2.2.2.2.2.2.1 okBackend none none _ rfl,
   c1_dispatch_error_handling.2.2.2.2.2.2.2.2.2.2.1 okBackend none none _ rfl,
   c1_dispatch_error_handling.2.2.2.2.2.2.2.2.2.2.2.1 okBackend none none _ rfl,
   c1_dispatch_error_handling.2.2.2.2.2.2.2.2.2.2.2.2.1 okBackend none none _ rfl,
   c1_dispatch_error_handling.2.2.2.2.2.2.2.2.2.2.2.2.2.1 okBackend none none _ rfl,
   c1_dispatch_error_handling.2.2.2.2.2.2.2.2.2.2.2.2.2.2.1 okBackend none none _ rfl,
   c1_dispatch_error_handling.2.2.2.2.2.2.2.2.2.2.2.2.2.2.2.1 okBackend none none _ rfl⟩

/-- C5 counterexample: the claim asserts the serialized success reply always
carries a `result` member (value or null), but `Result` is marshalled with
`omitempty`: a successfully completed `configure` serializes as an object
whose only member is `success`, with no `result` member at all. -/
theorem c5_counterexample :
    (Handle okBackend
      (some (.obj [("method", .str "configure"),
        ("params", .obj [("memory", .num 1024), ("cpus", .num 2)])]))).success
      = true ∧
    getMember
      (replyJson (Handle okBackend
        (some (.obj [("method", .str "configure"),
          ("params", .obj [("memory", .num 1024), ("cpus", .num 2)])]))))
      "result" = none :=
  ⟨rfl, rfl⟩

/-- C5 (amended): every successful operation serializes as an object whose
first member is `success: true`; the operations with a declared result shape
(`isRunning`, `isGuestConnected`, `spawn`, `isProcessRunning`, `readFile`,
`subscribeEvents`, `getDownloadStatus`) carry a `result` member of that
shape, while the ten null-result operations (`configure`, `createVM`,
`startVM`, `stopVM`, `kill`, `writeStdin`, `mountPath`, `installSdk`,
`addApprovedOauthToken`, `setDebugLogging`) omit the `result` member
entirely, because `Result` is marshalled with `omitempty` and is nil. -/
theorem c5_success_reply_shape :
    (∀ (b : Backend) (ps i : Option Json) (p : ConfigureParams),
      decodeConfigureParams ps = .ok p → b.configure p.memory p.cpus = .ok () →
      replyJson (dispatch b ⟨"configure", ps, i⟩) = .obj [("success", .bool true)]) ∧
    (∀ (b : Backend) (ps i : Option Json) (p : VmNameParams),
      decodeVmNameParams ps = .ok p → b.createVM p.name = .ok () →
      replyJson (dispatch b ⟨"createVM", ps, i⟩) = .obj [("success", .bool true)]) ∧
    (∀ (b : Backend) (ps i : Option Json) (p : VmNameParams),
      decodeVmNameParams ps = .ok p → b.startVM p.name = .ok () →
      replyJson (dispatch b ⟨"startVM", ps, i⟩) = .obj [("success", .bool true)]) ∧
    (∀ (b : Backend) (ps i : Option Json) (p : VmNameParams),
      decodeVmNameParams ps = .ok p → b.stopVM p.name = .ok () →
      replyJson (dispatch b ⟨"stopVM", ps, i⟩) = .obj [("success", .bool true)]) ∧
    (∀ (b : Backend) (ps i : Option Json) (r : Bool),
      b.isRunning (lenientName ps) = .ok r →
      replyJson (dispatch b ⟨"isRunning", ps, i⟩)
        = .obj [("success", .bool true), ("result", .obj [("running", .bool r)])]) ∧
    (∀ (b : Backend) (ps i : Option Json) (r : Bool),
      b.isGuestConnected (lenientName ps) = .ok r →
      replyJson (dispatch b ⟨"isGuestConnected", ps, i⟩)
        = .obj [("success", .bool true), ("result", .obj [("connected", .bool r)])]) ∧
    (∀ (b : Backend) (ps i : Option Json) (p : SpawnParams) (pid : String),
      decodeSpawnParams ps = .ok p →
      b.spawn p.name p.id p.cmd p.args p.env p.cwd
        (p.additionalMounts.map (fun m => (m.1, m.2.path))) = .ok pid →
      replyJson (dispatch b ⟨"spawn", ps, i⟩)
        = .obj [("success", .bool true), ("result", .obj [("id", .str pid)])]) ∧
    (∀ (b : Backend) (ps i : Option Json) (p : ProcessIDParams),
      decodeProcessIDParams ps = .ok p → b.kill p.processID = .ok () →
      replyJson (dispatch b ⟨"kill", ps, i⟩) = .obj [("success", .bool true)]) ∧
    (∀ (b : Backend) (ps i : Option Json) (p : WriteStdinParams),
      decodeWriteStdinParams ps = .ok p → b.writeStdin p.processID p.data = .ok () →
      replyJson (dispatch b ⟨"writeStdin", ps, i⟩) = .obj [("success", .bool true)]) ∧
    (∀ (b : Backend) (ps i : Option Json) (p : ProcessIDParams) (r : Bool),
      decodeProcessIDParams ps = .ok p → b.isProcessRunning p.processID = .ok r →
      replyJson (dispatch b ⟨"isProcessRunning", ps, i⟩)
        = .obj [("success", .bool true), ("result", .obj [("running", .bool r)])]) ∧
    (∀ (b : Backend) (ps i : Option Json) (p : MountPathParams),
      decodeMountPathParams ps = .ok p →
      b.mountPath p.name p.hostPath p.guestPath = .ok () →
      replyJson (dispatch b ⟨"mountPath", ps, i⟩) = .obj [("success", .bool true)]) ∧
    (∀ (b : Backend) (ps i : Option Json) (p : ReadFileParams) (d : String),
      decodeReadFileParams ps = .ok p → b.readFile p.name p.path = .ok d →
      replyJson (dispatch b ⟨"readFile", ps, i⟩)
        = .obj [("success", .bool true), ("result", .obj [("data", .str d)])]) ∧
    (∀ (b : Backend) (ps i : Option Json) (p : VmNameParams),
      decodeVmNameParams ps = .ok p → b.installSdk p.name = .ok () →
      replyJson (dispatch b ⟨"installSdk", ps, i⟩) = .obj [("success", .bool true)]) ∧
    (∀ (b : Backend) (ps i : Option Json) (p : OauthTokenParams),
      decodeOauthTokenParams ps = .ok p →
      b.addApprovedOauthToken p.name p.token = .ok () →
      replyJson (dispatch b ⟨"addApprovedOauthToken", ps, i⟩)
        = .obj [("success", .bool true)]) ∧
    (∀ (b : Backend) (ps i : Option Json) (p : DebugLoggingParams),
      decodeDebugLoggingParams ps = .ok p →
      replyJson (dispatch b ⟨"setDebugLogging", ps, i⟩)
        = .obj [("success", .bool true)]) ∧
    (∀ (b : Backend) (ps i : Option Json),
      b.subscribeEvents (lenientName ps) = .ok () →
      replyJson (dispatch b ⟨"subscribeEvents", ps, i⟩)
        = .obj [("success", .bool true),
            ("result", .obj [("subscribed", .bool true)])]) ∧
    (∀ (b : Backend) (ps i : Option Json),
      replyJson (dispatch b ⟨"getDownloadStatus", ps, i⟩)
        = .obj [("success", .bool true),
            ("result", .obj [("status", .str b.getDownloadStatus)])]) := by
  refine ⟨?_, ?_, ?_, ?_, ?_, ?_, ?_, ?_, ?_, ?_, ?_, ?_, ?_, ?_, ?_, ?_,
    fun b ps i => rfl⟩
  · intro b ps i p h1 h2
    show replyJson (handleConfigure b ⟨"configure", ps, i⟩) = _
    simp only [handleConfigure, h1, h2]
    rfl
  · intro b ps i p h1 h2
    show replyJson (handleCreateVM b ⟨"createVM", ps, i⟩) = _
    simp only [handleCreateVM, h1, h2]
    rfl
  · intro b ps i p h1 h2
    show replyJson (handleStartVM b ⟨"startVM", ps, i⟩) = _
    simp only [handleStartVM, h1, h2]
    rfl
  · intro b ps i p h1 h2
    show replyJson (handleStopVM b ⟨"stopVM", ps, i⟩) = _
    simp only [handleStopVM, h1, h2]
    rfl
  · intro b ps i r h1
    show replyJson (handleIsRunning b ⟨"isRunning", ps, i⟩) = _
    simp only [handleIsRunning, h1]
    rfl
  · intro b ps i r h1
    show replyJson (handleIsGuestConnected b ⟨"isGuestConnected", ps, i⟩) = _
    simp only [handleIsGuestConnected, h1]
    rfl
  · intro b ps i p pid h1 h2
    show replyJson (handleSpawn b ⟨"spawn", ps, i⟩) = _
    simp only [handleSpawn, h1, h2]
    rfl
  · intro b ps i p h1 h2
    show replyJson (handleKill b ⟨"kill", ps, i⟩) = _
    simp only [handleKill, h1, h2]
    rfl
  · intro b ps i p h1 h2
    show replyJson (handleWriteStdin b ⟨"writeStdin", ps, i⟩) = _
    simp only [handleWriteStdin, h1, h2]
    rfl
  · intro b ps i p r h1 h2
    show replyJson (handleIsProcessRunning b ⟨"isProcessRunning", ps, i⟩) = _
    simp only [handleIsProcessRunning, h1, h2]
    rfl
  · intro b ps i p h1 h2
    show replyJson (handleMountPath b ⟨"mountPath", ps, i⟩) = _
    simp only [handleMountPath, h1, h2]
    rfl
  · intro b ps i p d h1 h2
    show replyJson (handleReadFile b ⟨"readFile", ps, i⟩) = _
    simp only [handleReadFile, h1, h2]
    rfl
  · intro b ps i p h1 h2
    show replyJson (handleInstallSdk b ⟨"installSdk", ps, i⟩) = _
    simp only [handleInstallSdk, h1, h2]
    rfl
  · intro b ps i p h1 h2
    show replyJson (handleAddApprovedOauthToken b ⟨"addApprovedOauthToken", ps, i⟩) = _
    simp only [handleAddApprovedOauthToken, h1, h2]
    rfl
  · intro b ps i p h1
    show replyJson (handleSetDebugLogging b ⟨"setDebugLogging", ps, i⟩) = _
    simp only [handleSetDebugLogging, h1]
    rfl
  · intro b ps i h1
    show replyJson (handleSubscribeEvents b ⟨"subscribeEvents", ps, i⟩) = _
    simp only [handleSubscribeEvents, h1]
    rfl

/-- Witness for `c5_success_reply_shape`: every operation invoked against
`okBackend` with JSON `null` params (which decode to the zero-valued struct)
produces the stated wire shape. -/
theorem c5_success_reply_shape_witness :
    replyJson (dispatch okBackend ⟨"configure", some .null, none⟩)
      = .obj [("success", .bool true)] ∧
    replyJson (dispatch okBackend ⟨"createVM", some .null, none⟩)
      = .obj [("success", .bool true)] ∧
    replyJson (dispatch okBackend ⟨"startVM", some .null, none⟩)
      = .obj [("success", .bool true)] ∧
    replyJson (dispatch okBackend ⟨"stopVM", some .null, none⟩)
      = .obj [("success", .bool true)] ∧
    replyJson (dispatch okBackend ⟨"isRunning", some .null, none⟩)
      = .obj [("success", .bool true),
          ("result", .obj [("running", .bool false)])] ∧
    replyJson (dispatch okBackend ⟨"isGuestConnected", some .null, none⟩)
      = .obj [("success", .bool true),
          ("result", .obj [("connected", .bool false)])] ∧
    replyJson (dispatch okBackend ⟨"spawn", some .null, none⟩)
      = .obj [("success", .bool true), ("result", .obj [("id", .str "proc-1")])] ∧
    replyJson (dispatch okBackend ⟨"kill", some .null, none⟩)
      = .obj [("success", .bool true)] ∧
    replyJson (dispatch okBackend ⟨"writeStdin", some .null, none⟩)
      = .obj [("success", .bool true)] ∧
    replyJson (dispatch okBackend ⟨"isProcessRunning", some .null, none⟩)
      = .obj [("success", .bool true),
          ("result", .obj [("running", .bool true)])] ∧
    replyJson (dispatch okBackend ⟨"mountPath", some .null, none⟩)
      = .obj [("success", .bool true)] ∧
    replyJson (dispatch okBackend ⟨"readFile", some .null, none⟩)
      = .obj [("success", .bool true), ("result", .obj [("data", .str "data")])] ∧
    replyJson (dispatch okBackend ⟨"installSdk", some .null, none⟩)
      = .obj [("success", .bool true)] ∧
    replyJson (dispatch okBackend ⟨"addApprovedOauthToken", some .null, none⟩)
      = .obj [("success", .bool true)] ∧
    replyJson (dispatch okBackend ⟨"setDebugLogging", some .null, none⟩)
      = .obj [("success", .bool true)] ∧
    replyJson (dispatch okBackend ⟨"subscribeEvents", some .null, none⟩)
      = .obj [("success", .bool true),
          ("result", .obj [("subscribed", .bool true)])] ∧
    replyJson (dispatch okBackend ⟨"getDownloadStatus", some .null, none⟩)
      = .obj [("success", .bool true), ("result", .obj [("status", .str "Ready")])] :=
  ⟨c5_success_reply_shape.1 okBackend (some .null) none _ rfl rfl,
   c5_success_reply_shape.2.1 okBackend (some .null) none _ rfl rfl,
   c5_success_reply_shape.2.2.1 okBackend (some .null) none _ rfl rfl,
   c5_success_reply_shape.2.2.2.1 okBackend (some .null) none _ rfl rfl,
   c5_success_reply_shape.2.2.2.2.1 okBackend (some .null) none false rfl,
   c5_success_reply_shape.2.2.2.2.2.1 okBackend (some .null) none false rfl,
   c5_success_reply_shape.2.2.2.2.2.2.1 okBackend (some .null) none _ "proc-1" rfl rfl,
   c5_success_reply_shape.2.2.2.2.2.2.2.1 okBackend (some .null) none _ rfl rfl,
   c5_success_reply_shape.2.2.2.2.2.2.2.2.1 okBackend (some .null) none _ rfl rfl,
   c5_success_reply_shape.2.2.2.2.2.2.2.2.2.1 okBackend (some .null) none _ true rfl rfl,
   c5_success_reply_shape.2.2.2.2.2.2.2.2.2.2.1 okBackend (some .null) none _ rfl rfl,
   c5_success_reply_shape.2.2.2.2.2.2.2.2.2.2.2.1 okBackend (some .null) none _ "data" rfl rfl,
   c5_success_reply_shape.2.2.2.2.2.2.2.2.2.2.2.2.1 okBackend (some .null) none _ rfl rfl,
   c5_success_reply_shape.2.2.2.2.2.2.2.2.2.2.2.2.2.1 okBackend (some .null) none _ rfl rfl,
   c5_success_reply_shape.2.2.2.2.2.2.2.2.2.2.2.2.2.2.1 okBackend (some .null) none _ rfl,
   c5_success_reply_shape.2.2.2.2.2.2.2.2.2.2.2.2.2.2.2.1 okBackend (some .null) none rfl,
   c5_success_reply_shape.2.2.2.2.2.2.2.2.2.2.2.2.2.2.2.2 okBackend (some .null) none⟩

/-! ### Output streaming theorems -/

/-- C4: for every line a child writes to stdout or stderr, the reader emits
exactly one event — of type `stdout`, bearing the process id, with data the
line plus a trailing newline after reverse remapping when enabled — and no
event of type `stderr` is ever emitted. -/
theorem c4_stdout_events :
    (∀ (id : String) (lp : Option LocalProc) (lines : List String)
        (scanErr : Option String) (streamName : String),
      (streamOutput id lp lines scanErr streamName).filter
          (fun e => eventType e == "stdout")
        = lines.map (fun t => Event.stdout id (reverseMapLine lp (t ++ "\n")))) ∧
    (∀ (id : String) (lp : Option LocalProc) (lines : List String)
        (scanErr : Option String) (streamName : String) (e : Event),
      e ∈ streamOutput id lp lines scanErr streamName →
      eventType e ≠ "stderr") := by
  constructor
  · intro id lp lines scanErr streamName
    unfold streamOutput
    rw [List.filter_append]
    have h1 : (lines.map (fun t =>
        NewStdoutEvent id (reverseMapLine lp (t ++ "\n")))).filter
          (fun e => eventType e == "stdout")
        = lines.map (fun t => NewStdoutEvent id (reverseMapLine lp (t ++ "\n"))) := by
      apply List.filter_eq_self.mpr
      intro e he
      obtain ⟨t, _, rfl⟩ := List.mem_map.mp he
      rfl
    have h2 : (match scanErr with
        | some e => [NewErrorEvent id (streamName ++ " scanner error: " ++ e) false]
        | none => ([] : List Event)).filter (fun e => eventType e == "stdout")
        = [] := by
      cases scanErr <;> rfl
    rw [h1, h2, List.append_nil]
    rfl
  · intro id lp lines scanErr streamName e he
    unfold streamOutput at he
    rcases List.mem_append.mp he with hm | hm
    · obtain ⟨t, _, rfl⟩ := List.mem_map.mp hm
      exact (show ("stdout" : String) ≠ "stderr" by decide)
    · cases scanErr with
      | none => exact absurd hm (List.not_mem_nil e)
      | some msg =>
        rcases List.mem_singleton.mp hm with rfl
        exact (show ("error" : String) ≠ "stderr" by decide)

/-- Witness for `c4_stdout_events`: the single line `hi` with no remapping
produces exactly the event `stdout` with data `hi` plus newline, and that
event's type is not `stderr`. -/
theorem c4_stdout_events_witness :
    (streamOutput "p1" none ["hi"] none "stderr").filter
        (fun e => eventType e == "stdout")
      = [Event.stdout "p1" "hi\n"] ∧
    eventType (Event.stdout "p1" "hi\n") ≠ "stderr" :=
  ⟨(c4_stdout_events.1 "p1" none ["hi"] none "stderr").trans rfl,
   c4_stdout_events.2 "p1" none ["hi"] none "stderr" (Event.stdout "p1" "hi\n")
     (List.mem_append_left _ (List.mem_map_of_mem _ (List.mem_singleton_self "hi")))⟩

/-! ### Child environment theorems -/

theorem envValue_append (l1 l2 : List (String × String)) (n : String) :
    envValue (l1 ++ l2) n = (envValue l2 n).or (envValue l1 n) := by
  induction l1 with
  | nil =>
    cases h : envValue l2 n <;> simp [envValue, Option.or, h]
  | cons p rest ih =>
    show (match envValue (rest ++ l2) n with
          | some v => some v
          | none => if p.1 = n then some p.2 else none)
        = (envValue l2 n).or (envValue (p :: rest) n)
    rw [ih]
    cases h : envValue l2 n <;> cases h2 : envValue rest n <;>
      simp [envValue, Option.or, h, h2]

theorem envValue_none_of_not_mem (l : List (String × String)) (n : String)
    (h : ∀ p ∈ l, p.1 ≠ n) : envValue l n = none := by
  induction l with
  | nil => rfl
  | cons p rest ih =>
    have hrest : envValue rest n = none :=
      ih (fun q hq => h q (List.mem_cons_of_mem p hq))
    simp [envValue, hrest, h p (List.mem_cons_self p rest)]

theorem mem_stripClaudeVars (env : List (String × String)) (p : String × String)
    (hp : p ∈ stripClaudeVars env) :
    p.1 ≠ "CLAUDECODE" ∧ p.1 ≠ "CLAUDE_CODE_ENTRYPOINT" := by
  unfold stripClaudeVars at hp
  have hb := List.of_mem_filter hp
  constructor <;> intro he <;> rw [he] at hb <;> simp at hb

theorem envValue_strip_ne (env : List (String × String)) (n : String)
    (h1 : n ≠ "CLAUDECODE") (h2 : n ≠ "CLAUDE_CODE_ENTRYPOINT") :
    envValue (stripClaudeVars env) n = envValue env n := by
  induction env with
  | nil => rfl
  | cons p rest ih =>
    by_cases hp : p.1 = "CLAUDECODE" ∨ p.1 = "CLAUDE_CODE_ENTRYPOINT"
    · have hdrop : stripClaudeVars (p :: rest) = stripClaudeVars rest := by
        simp only [stripClaudeVars, List.filter_cons]
        rcases hp with hp | hp <;> simp [hp]
      have hne : ¬ p.1 = n := by
        rcases hp with hp | hp
        · rw [hp]
          exact fun he => h1 he.symm
        · rw [hp]
          exact fun he => h2 he.symm
      rw [hdrop, ih]
      cases hr : envValue rest n with
      | some v => simp [envValue, hr]
      | none => simp [envValue, hr, hne]
    · push_neg at hp
      have hkeep : stripClaudeVars (p :: rest) = p :: stripClaudeVars rest := by
        simp only [stripClaudeVars, List.filter_cons]
        simp [hp.1, hp.2]
      rw [hkeep]
      simp only [envValue, ih]

/-- C9: the child environment equals the supervisor's own environment
overlaid with the caller's map (the caller's value winning), with
`CLAUDECODE` and `CLAUDE_CODE_ENTRYPOINT` removed — also when the caller's
map itself supplies them, and also when the caller's map is empty. -/
theorem c9_child_env :
    (∀ osEnv callerEnv : List (String × String),
      envValue (buildChildEnv osEnv callerEnv) "CLAUDECODE" = none ∧
      envValue (buildChildEnv osEnv callerEnv) "CLAUDE_CODE_ENTRYPOINT" = none) ∧
    (∀ (osEnv callerEnv : List (String × String)) (n : String),
      n ≠ "CLAUDECODE" → n ≠ "CLAUDE_CODE_ENTRYPOINT" →
      envValue (buildChildEnv osEnv callerEnv) n
        = (envValue callerEnv n).or (envValue osEnv n)) := by
  constructor
  · intro osEnv callerEnv
    constructor
    · exact envValue_none_of_not_mem _ _
        (fun p hp => (mem_stripClaudeVars _ p hp).1)
    · exact envValue_none_of_not_mem _ _
        (fun p hp => (mem_stripClaudeVars _ p hp).2)
  · intro osEnv callerEnv n h1 h2
    unfold buildChildEnv
    cases callerEnv with
    | nil =>
      rw [show (if ([] : List (String × String)).isEmpty then osEnv
          else osEnv ++ []) = osEnv from rfl]
      rw [envValue_strip_ne _ _ h1 h2]
      cases hx : envValue osEnv n <;> simp [envValue, Option.or]
    | cons q qs =>
      rw [show (if (q :: qs).isEmpty then osEnv else osEnv ++ q :: qs)
          = osEnv ++ q :: qs from rfl]
      rw [envValue_strip_ne _ _ h1 h2, envValue_append]

/-- Witness for `c9_child_env`: a supervisor environment defining
`CLAUDECODE` and `PATH`, a caller map overriding `PATH` and supplying
`CLAUDE_CODE_ENTRYPOINT`: both scrubbed names resolve to nothing and `PATH`
resolves to the caller's value. -/
theorem c9_child_env_witness :
    envValue (buildChildEnv [("CLAUDECODE", "1"), ("PATH", "/usr/bin")]
        [("PATH", "/opt/bin"), ("CLAUDE_CODE_ENTRYPOINT", "cli")]) "CLAUDECODE"
      = none ∧
    envValue (buildChildEnv [("CLAUDECODE", "1"), ("PATH", "/usr/bin")]
        [("PATH", "/opt/bin"), ("CLAUDE_CODE_ENTRYPOINT", "cli")])
      "CLAUDE_CODE_ENTRYPOINT" = none ∧
    envValue (buildChildEnv [("CLAUDECODE", "1"), ("PATH", "/usr/bin")]
        [("PATH", "/opt/bin"), ("CLAUDE_CODE_ENTRYPOINT", "cli")]) "PATH"
      = some "/opt/bin" :=
  ⟨(c9_child_env.1 [("CLAUDECODE", "1"), ("PATH", "/usr/bin")]
      [("PATH", "/opt/bin"), ("CLAUDE_CODE_ENTRYPOINT", "cli")]).1,
   (c9_child_env.1 [("CLAUDECODE", "1"), ("PATH", "/usr/bin")]
      [("PATH", "/opt/bin"), ("CLAUDE_CODE_ENTRYPOINT", "cli")]).2,
   (c9_child_env.2 [("CLAUDECODE", "1"), ("PATH", "/usr/bin")]
      [("PATH", "/opt/bin"), ("CLAUDE_CODE_ENTRYPOINT", "cli")] "PATH"
      (by decide) (by decide)).trans rfl⟩

/-! ### Kill path theorems -/

theorem fieldLast_append_ne (fs : List (String × Json)) (k n : String)
    (v : Json) (hk : k ≠ n) :
    fieldLast (fs ++ [(k, v)]) n = fieldLast fs n := by
  induction fs with
  | nil => simp [fieldLast, hk]
  | cons p rest ih =>
    show (match fieldLast (rest ++ [(k, v)]) n with
          | some w => some w
          | none => if p.1 = n then some p.2 else none)
        = (match fieldLast rest n with
          | some w => some w
          | none => if p.1 = n then some p.2 else none)
    rw [ih]

/-- C10: the client cannot choose the signal a `kill` delivers — the params
decode reads only the `id` member (an extra `signal` member changes
nothing), `mapSignal` sends the empty string and every unrecognized name to
`SIGTERM`, and every client-initiated kill that performs a delivery delivers
`SIGTERM` to the process group named by the `Getpgid` result (or to the
process alone when that call failed). -/
theorem c10_kill_is_sigterm :
    mapSignal "" = .SIGTERM ∧
    (∀ name : String,
      asciiUpper (trimPrefixStr (asciiUpper name) "SIG") ∉
        (["KILL", "INT", "QUIT", "HUP", "USR1", "USR2"] : List String) →
      mapSignal name = .SIGTERM) ∧
    (∀ (fs : List (String × Json)) (v : Json),
      decodeProcessIDParams (some (.obj (fs ++ [("signal", v)])))
        = decodeProcessIDParams (some (.obj fs))) ∧
    (∀ (procs : List (String × LocalProc)) (params : Option Json)
        (pgidResult : Option Nat) (act : KillAction),
      clientKill procs params pgidResult = .ok (some act) →
      act.signal = .SIGTERM) ∧
    (∀ (procs : List (String × LocalProc)) (params : Option Json)
        (pgid : Nat) (act : KillAction),
      clientKill procs params (some pgid) = .ok (some act) →
      act.target = .group pgid) := by
  refine ⟨rfl, ?_, ?_, ?_, ?_⟩
  · intro name h
    simp only [List.mem_cons, List.not_mem_nil, or_false, not_or] at h
    obtain ⟨h1, h2, h3, h4, h5, h6⟩ := h
    simp only [mapSignal]
    rw [if_neg h1, if_neg h2, if_neg h3, if_neg h4, if_neg h5, if_neg h6]
  · intro fs v
    have hf : fieldLast (fs ++ [("signal", v)]) "id" = fieldLast fs "id" :=
      fieldLast_append_ne fs "signal" "id" v (by decide)
    simp only [decodeProcessIDParams, decodeParamsWith, getStrField, hf]
  · intro procs params pgidResult act h
    unfold clientKill at h
    split at h
    · exact absurd h (by simp)
    · unfold managerKill ptKill at h
      split at h
      · exact absurd h (by simp)
      · rename_i lp heq
        split at h
        · simp at h
        · cases pgidResult with
          | some pgid =>
            simp only [Except.ok.injEq, Option.some.injEq] at h
            rw [← h]
            rfl
          | none =>
            simp only [Except.ok.injEq, Option.some.injEq] at h
            rw [← h]
            rfl
  · intro procs params pgid act h
    unfold clientKill at h
    split at h
    · exact absurd h (by simp)
    · unfold managerKill ptKill at h
      split at h
      · exact absurd h (by simp)
      · split at h
        · simp at h
        · simp only [Except.ok.injEq, Option.some.injEq] at h
          rw [← h]

/-- Witness for `c10_kill_is_sigterm`: the unrecognized name `FOO` maps to
`SIGTERM`; adding a `signal` member to kill params changes nothing; and the
full client kill path on a live process `p1` with group id `7` delivers
`SIGTERM` to group `7` even though the params carried `signal: KILL`. -/
theorem c10_kill_is_sigterm_witness :
    mapSignal "FOO" = .SIGTERM ∧
    decodeProcessIDParams
        (some (.obj ([("id", Json.str "p1")] ++ [("signal", Json.str "KILL")])))
      = decodeProcessIDParams (some (.obj [("id", Json.str "p1")])) ∧
    clientKill
        [("p1", { id := "p1", prefixPair := none, reverseMap := false,
                  mountRemap := [], doneSet := false, hasProcess := true,
                  pid := 42 })]
        (some (.obj ([("id", Json.str "p1")] ++ [("signal", Json.str "KILL")])))
        (some 7)
      = .ok (some { target := .group 7, signal := .SIGTERM }) ∧
    (({ target := .group 7, signal := .SIGTERM } : KillAction)).signal
      = .SIGTERM ∧
    (({ target := .group 7, signal := .SIGTERM } : KillAction)).target
      = .group 7 :=
  ⟨c10_kill_is_sigterm.2.1 "FOO" (by decide),
   c10_kill_is_sigterm.2.2.1 [("id", Json.str "p1")] (Json.str "KILL"),
   rfl,
   c10_kill_is_sigterm.2.2.2.1
     [("p1", { id := "p1", prefixPair := none, reverseMap := false,
               mountRemap := [], doneSet := false, hasProcess := true,
               pid := 42 })]
     (some (.obj ([("id", Json.str "p1")] ++ [("signal", Json.str "KILL")])))
     (some 7) { target := .group 7, signal := .SIGTERM } rfl,
   c10_kill_is_sigterm.2.2.2.2
     [("p1", { id := "p1", prefixPair := none, reverseMap := false,
               mountRemap := [], doneSet := false, hasProcess := true,
               pid := 42 })]
     (some (.obj ([("id", Json.str "p1")] ++ [("signal", Json.str "KILL")])))
     7 { target := .group 7, signal := .SIGTERM } rfl⟩

/-! ### Stdin write theorems -/

/-- C6: `writeStdin` fails with `process <id> not found` on unknown ids,
with `process <id> has exited` when the completion latch is set before the
write begins, with `process <id> exited during write` when the latch fires
while the write is pending, and with `stdin write timeout for process <id>`
when the 10-second timer fires first; when the write goroutine completes
without error, the call succeeds and the bytes delivered to the child's
stdin are the remapped and stripped transformation of the input. -/
theorem c6_write_stdin :
    stdinWriteTimeoutSec = 10 ∧
    (∀ (procs : List (String × LocalProc)) (pid : String)
        (data : List Char) (race : WriteRace),
      procs.find? (fun p => p.1 = pid) = none →
      writeStdinProc procs pid data race
        = .error ("process " ++ pid ++ " not found")) ∧
    (∀ (procs : List (String × LocalProc)) (pid : String)
        (q : String × LocalProc) (data : List Char) (race : WriteRace),
      procs.find? (fun p => p.1 = pid) = some q → q.2.doneSet = true →
      writeStdinProc procs pid data race
        = .error ("process " ++ pid ++ " has exited")) ∧
    (∀ (procs : List (String × LocalProc)) (pid : String)
        (q : String × LocalProc) (data : List Char),
      procs.find? (fun p => p.1 = pid) = some q → q.2.doneSet = false →
      writeStdinProc procs pid data .exitedDuring
        = .error ("process " ++ pid ++ " exited during write")) ∧
    (∀ (procs : List (String × LocalProc)) (pid : String)
        (q : String × LocalProc) (data : List Char),
      procs.find? (fun p => p.1 = pid) = some q → q.2.doneSet = false →
      writeStdinProc procs pid data .timedOut
        = .error ("stdin write timeout for process " ++ pid)) ∧
    (∀ (procs : List (String × LocalProc)) (pid : String)
        (q : String × LocalProc) (data : List Char) (e : String),
      procs.find? (fun p => p.1 = pid) = some q → q.2.doneSet = false →
      writeStdinProc procs pid data (.completed (some e)) = .error e) ∧
    (∀ (procs : List (String × LocalProc)) (pid : String)
        (q : String × LocalProc) (data : List Char),
      procs.find? (fun p => p.1 = pid) = some q → q.2.doneSet = false →
      writeStdinProc procs pid data (.completed none)
        = .ok (stdinTransform q.2 data)) := by
  refine ⟨rfl, ?_, ?_, ?_, ?_, ?_, ?_⟩
  · intro procs pid data race hf
    unfold writeStdinProc
    rw [hf]
    rfl
  · intro procs pid q data race hf hd
    unfold writeStdinProc
    rw [hf]
    simp only [Option.map_some]
    rw [show (q.2.doneSet = true) = (q.2.doneSet = true) from rfl] at hd
    simp [hd]
  · intro procs pid q data hf hd
    unfold writeStdinProc
    rw [hf]
    simp [hd]
  · intro procs pid q data hf hd
    unfold writeStdinProc
    rw [hf]
    simp [hd]
  · intro procs pid q data e hf hd
    unfold writeStdinProc
    rw [hf]
    simp [hd]
  · intro procs pid q data hf hd
    unfold writeStdinProc
    rw [hf]
    simp [hd]

/-- Witness for `c6_write_stdin`: the registry `sampleProcs` with a live
process `p1` and a reaped process `p2`; the unknown id `zz` fails, writing
to `p2` fails as exited, and each race outcome on `p1` produces the stated
result — with no remapping configured and no marker in the bytes, the
delivered bytes equal the input. -/
theorem c6_write_stdin_witness :
    writeStdinProc sampleProcs "zz" (String.data "hi") (.completed none)
      = .error "process zz not found" ∧
    writeStdinProc sampleProcs "p2" (String.data "hi") (.completed none)
      = .error "process p2 has exited" ∧
    writeStdinProc sampleProcs "p1" (String.data "hi") .exitedDuring
      = .error "process p1 exited during write" ∧
    writeStdinProc sampleProcs "p1" (String.data "hi") .timedOut
      = .error "stdin write timeout for process p1" ∧
    writeStdinProc sampleProcs "p1" (String.data "hi") (.completed (some "broken pipe"))
      = .error "broken pipe" ∧
    writeStdinProc sampleProcs "p1" (String.data "hi") (.completed none)
      = .ok (String.data "hi") :=
  ⟨(c6_write_stdin.2.1 sampleProcs "zz" (String.data "hi")
      (.completed none) rfl).trans rfl,
   (c6_write_stdin.2.2.1 sampleProcs "p2" _ (String.data "hi")
      (.completed none) rfl rfl).trans rfl,
   (c6_write_stdin.2.2.2.1 sampleProcs "p1" _ (String.data "hi") rfl rfl).trans rfl,
   (c6_write_stdin.2.2.2.2.1 sampleProcs "p1" _ (String.data "hi") rfl rfl).trans rfl,
   (c6_write_stdin.2.2.2.2.2.1 sampleProcs "p1" _ (String.data "hi")
      "broken pipe" rfl rfl).trans rfl,
   (c6_write_stdin.2.2.2.2.2.2 sampleProcs "p1" _ (String.data "hi") rfl rfl).trans rfl⟩

/-! ### Skill-prefix stripping theorems -/

theorem matchRest_some_length (s r : List Char) (h : matchRest s = some r) :
    r.length < s.length := by
  simp only [matchRest] at h
  split at h
  · split at h
    · rename_i ch tail hd
      split at h
      · have hr : tail = r := Option.some.inj h
        subst hr
        have h1 := congrArg List.length hd
        rw [List.length_drop, List.length_drop] at h1
        simp only [List.length_cons] at h1
        omega
      · exact absurd h (by simp)
    · exact absurd h (by simp)
  · exact absurd h (by simp)

theorem replaceReGo_congr (n : Nat) :
    ∀ (s : List Char) (f1 f2 : Nat), s.length ≤ n → s.length ≤ f1 →
      s.length ≤ f2 → replaceReGo f1 s = replaceReGo f2 s := by
  induction n with
  | zero =>
    intro s f1 f2 h0 _ _
    have hs : s = [] := List.length_eq_zero.mp (Nat.le_zero.mp h0)
    subst hs
    cases f1 <;> cases f2 <;> rfl
  | succ n ih =>
    intro s f1 f2 h0 h1 h2
    cases s with
    | nil => cases f1 <;> cases f2 <;> rfl
    | cons c rest =>
      simp only [List.length_cons] at h0 h1 h2
      cases f1 with
      | zero => omega
      | succ f1' =>
        cases f2 with
        | zero => omega
        | succ f2' =>
          simp only [replaceReGo]
          cases hm : matchRest (c :: rest) with
          | some r =>
            have hlt := matchRest_some_length _ _ hm
            simp only [List.length_cons] at hlt
            exact congrArg (skillMarker ++ ·)
              (ih r f1' f2' (by omega) (by omega) (by omega))
          | none =>
            exact congrArg (c :: ·)
              (ih rest f1' f2' (by omega) (by omega) (by omega))

theorem replaceRe_cons_some (c : Char) (rest r : List Char)
    (hm : matchRest (c :: rest) = some r) :
    replaceRe (c :: rest) = skillMarker ++ replaceRe r := by
  have hlt := matchRest_some_length _ _ hm
  simp only [List.length_cons] at hlt
  show replaceReGo (c :: rest).length (c :: rest) = _
  simp only [List.length_cons, replaceReGo, hm]
  exact congrArg (skillMarker ++ ·)
    (replaceReGo_congr r.length r rest.length r.length le_rfl (by omega) le_rfl)

theorem replaceRe_cons_none (c : Char) (rest : List Char)
    (hm : matchRest (c :: rest) = none) :
    replaceRe (c :: rest) = c :: replaceRe rest := by
  show replaceReGo (c :: rest).length (c :: rest) = _
  simp only [List.length_cons, replaceReGo, hm]
  rfl

theorem replaceRe_match_any (s r : List Char) (hs : s ≠ [])
    (hm : matchRest s = some r) :
    replaceRe s = skillMarker ++ replaceRe r := by
  cases s with
  | nil => exact absurd rfl hs
  | cons c rest => exact replaceRe_cons_some c rest r hm

theorem takeWhile_append_stop (p : Char → Bool) (l1 l2 : List Char) (x : Char)
    (h1 : ∀ c ∈ l1, p c = true) (hx : p x = false) :
    (l1 ++ x :: l2).takeWhile p = l1 := by
  induction l1 with
  | nil => simp [List.takeWhile_cons, hx]
  | cons c rest ih =>
    have hc : p c = true := h1 c (List.mem_cons_self c rest)
    show List.takeWhile p (c :: (rest ++ x :: l2)) = c :: rest
    rw [List.takeWhile_cons, hc, if_pos rfl]
    rw [ih (fun d hd => h1 d (List.mem_cons_of_mem c hd))]

theorem matchRest_prefixed (name suf : List Char) (hne : name ≠ [])
    (hw : ∀ c ∈ name, isWordChar c = true) :
    matchRest (skillMarker ++ (name ++ ':' :: suf)) = some suf := by
  have hp : skillMarker.isPrefixOf (skillMarker ++ (name ++ ':' :: suf)) = true :=
    List.isPrefixOf_iff_prefix.mpr (List.prefix_append _ _)
  have hdrop1 : (skillMarker ++ (name ++ ':' :: suf)).drop skillMarker.length
      = name ++ ':' :: suf := List.drop_left _ _
  have htake : (name ++ ':' :: suf).takeWhile isWordChar = name :=
    takeWhile_append_stop isWordChar name suf ':' hw (by decide)
  simp only [matchRest, hp, if_true, hdrop1, htake]
  rw [show (name ++ ':' :: suf).drop name.length = ':' :: suf from
    List.drop_left _ _]
  show (if ':' = ':' ∧ name ≠ [] then some suf else none) = some suf
  rw [if_pos ⟨rfl, hne⟩]

/-- C8: the stripping step of `writeStdin` — the last stage of the stdin
transformation — rewrites, in one left-to-right pass, every leftmost
non-overlapping occurrence of the pattern (marker, then a non-empty run of
word characters, then a colon) to the bare marker, and leaves any payload
without the marker substring untouched. -/
theorem c8_skill_prefix_strip :
    (∀ (lp : LocalProc) (data : List Char), lp.prefixPair = none →
      lp.mountRemap = [] → stdinTransform lp data = stripSkill data) ∧
    (∀ data : List Char, containsSub skillMarker data = false →
      stripSkill data = data) ∧
    (∀ data : List Char, containsSub skillMarker data = true →
      reMatches data = true → stripSkill data = replaceRe data) ∧
    (∀ (name suf : List Char), name ≠ [] →
      (∀ c ∈ name, isWordChar c = true) →
      matchRest (skillMarker ++ (name ++ ':' :: suf)) = some suf) ∧
    (∀ (name suf : List Char), name ≠ [] →
      (∀ c ∈ name, isWordChar c = true) →
      replaceRe (skillMarker ++ (name ++ ':' :: suf))
        = skillMarker ++ replaceRe suf) ∧
    (∀ (c : Char) (rest : List Char), matchRest (c :: rest) = none →
      replaceRe (c :: rest) = c :: replaceRe rest) := by
  refine ⟨?_, ?_, ?_, matchRest_prefixed, ?_, replaceRe_cons_none⟩
  · intro lp data h1 h2
    unfold stdinTransform
    rw [h1, h2]
    rfl
  · intro data h
    unfold stripSkill
    rw [h]
    rfl
  · intro data h1 h2
    unfold stripSkill
    rw [h1, h2]
    rfl
  · intro name suf hne hw
    refine replaceRe_match_any _ _ ?_ (matchRest_prefixed name suf hne hw)
    intro hnil
    have := congrArg List.length hnil
    simp [skillMarker] at this

/-- Witness for `c8_skill_prefix_strip` on the claim's concrete payloads:
a marker-free payload passes through unchanged; the payload containing
marker, `foo-bar`, colon, `baz q` is rewritten so that the plugin prefix
`foo-bar:` disappears; a single character with no match is copied. -/
theorem c8_skill_prefix_strip_witness :
    containsSub skillMarker (String.data "hello world") = false ∧
    stripSkill (String.data "hello world") = String.data "hello world" ∧
    stdinTransform
        { id := "p1", prefixPair := none, reverseMap := false,
          mountRemap := [], doneSet := false, hasProcess := true, pid := 1 }
        (String.data "hello world")
      = stripSkill (String.data "hello world") ∧
    matchRest (skillMarker ++ (String.data "foo-bar" ++ ':' :: String.data "baz q"))
      = some (String.data "baz q") ∧
    replaceRe (skillMarker ++ (String.data "foo-bar" ++ ':' :: String.data "baz q"))
      = skillMarker ++ replaceRe (String.data "baz q") ∧
    replaceRe ['x'] = 'x' :: replaceRe [] ∧
    stripSkill (String.data "\"content\":\"/foo-bar:baz q\"")
      = String.data "\"content\":\"/baz q\"" :=
  ⟨rfl,
   c8_skill_prefix_strip.2.1 (String.data "hello world") rfl,
   c8_skill_prefix_strip.1
     { id := "p1", prefixPair := none, reverseMap := false,
       mountRemap := [], doneSet := false, hasProcess := true, pid := 1 }
     (String.data "hello world") rfl rfl,
   c8_skill_prefix_strip.2.2.2.1 (String.data "foo-bar") (String.data "baz q")
     (by decide) (by decide),
   c8_skill_prefix_strip.2.2.2.2.1 (String.data "foo-bar") (String.data "baz q")
     (by decide) (by decide),
   c8_skill_prefix_strip.2.2.2.2.2 'x' [] rfl,
   rfl⟩

/-! ### Process identity theorems -/

theorem toDigits_lt10 (n : Nat) : ∀ d ∈ toDigits n, d < 10 := by
  induction n using Nat.strong_induction_on with
  | _ n ih =>
    intro d hd
    unfold toDigits at hd
    by_cases h : n < 10
    · rw [dif_pos h] at hd
      rw [List.mem_singleton] at hd
      omega
    · rw [dif_neg h] at hd
      rcases List.mem_append.mp hd with hd | hd
      · exact ih (n / 10) (Nat.div_lt_self (by omega) (by decide)) d hd
      · rw [List.mem_singleton] at hd
        have hm : n % 10 < 10 := Nat.mod_lt _ (by decide)
        omega

theorem ofDigits_append_digit (l : List Nat) (d : Nat) :
    ofDigits (l ++ [d]) = ofDigits l * 10 + d := by
  simp [ofDigits, List.foldl_append]

theorem ofDigits_toDigits (n : Nat) : ofDigits (toDigits n) = n := by
  induction n using Nat.strong_induction_on with
  | _ n ih =>
    unfold toDigits
    by_cases h : n < 10
    · rw [dif_pos h]
      simp [ofDigits]
    · rw [dif_neg h]
      rw [ofDigits_append_digit, ih (n / 10) (Nat.div_lt_self (by omega) (by decide))]
      omega

theorem digitChar_inj : ∀ d1 < 10, ∀ d2 < 10,
    digitChar d1 = digitChar d2 → d1 = d2 := by decide

theorem map_digitChar_inj : ∀ l1 l2 : List Nat, (∀ d ∈ l1, d < 10) →
    (∀ d ∈ l2, d < 10) → l1.map digitChar = l2.map digitChar → l1 = l2 := by
  intro l1
  induction l1 with
  | nil =>
    intro l2 _ _ h
    cases l2 with
    | nil => rfl
    | cons d2 rest2 => simp at h
  | cons d rest ih =>
    intro l2 h1 h2 h
    cases l2 with
    | nil => simp at h
    | cons d2 rest2 =>
      simp only [List.map_cons, List.cons.injEq] at h
      have hd : d = d2 :=
        digitChar_inj d (h1 d (List.mem_cons_self d rest))
          d2 (h2 d2 (List.mem_cons_self d2 rest2)) h.1
      rw [hd, ih rest2 (fun x hx => h1 x (List.mem_cons_of_mem d hx))
        (fun x hx => h2 x (List.mem_cons_of_mem d2 hx)) h.2]

theorem natToStr_inj (a b : Nat) (h : natToStr a = natToStr b) : a = b := by
  have hdata : (toDigits a).map digitChar = (toDigits b).map digitChar :=
    congrArg String.data h
  have hdig := map_digitChar_inj _ _ (toDigits_lt10 a) (toDigits_lt10 b) hdata
  rw [← ofDigits_toDigits a, ← ofDigits_toDigits b, hdig]

theorem procName_inj (a b : Nat) (h : procName a = procName b) : a = b := by
  have h2 : (natToStr a).data = (natToStr b).data :=
    congrArg (fun s : String => s.data.drop 5) h
  exact natToStr_inj a b (congrArg String.mk h2)

theorem gen_ids_eq (log : List SpawnEntry)
    (h : ∀ e ∈ log, ∀ n, e.genCounter = some n → e.id = procName n) :
    (log.filter (fun e => e.genCounter.isSome)).map (fun e => e.id)
      = (log.filterMap (fun e => e.genCounter)).map procName := by
  induction log with
  | nil => rfl
  | cons e rest ih =>
    have hrest := ih (fun x hx => h x (List.mem_cons_of_mem e hx))
    cases hg : e.genCounter with
    | none =>
      simp only [List.filter_cons, List.filterMap_cons, hg]
      simpa using hrest
    | some n =>
      have hid : e.id = procName n := h e (List.mem_cons_self e rest) n hg
      simp only [List.filter_cons, List.filterMap_cons, hg]
      simp [hid, hrest]

theorem spawnStep_inv (st : TrackerState) (c : String) (h : trackerInv st) :
    trackerInv (spawnStep st c).2 := by
  obtain ⟨hlink, hbound, hpair⟩ := h
  by_cases hc : c = ""
  · subst hc
    have hstep : (spawnStep st "").2
        = { nextID := st.nextID + 1, spawnCount := st.spawnCount + 1,
            registry := registryInsert st.registry (procName (st.nextID + 1))
              st.spawnCount,
            spawnLog := st.spawnLog ++
              [{ id := procName (st.nextID + 1), handle := st.spawnCount,
                 genCounter := some (st.nextID + 1) }] } := by
      simp [spawnStep]
    rw [hstep]
    refine ⟨?_, ?_, ?_⟩
    · intro e he n hn
      rcases List.mem_append.mp he with he | he
      · exact hlink e he n hn
      · rw [List.mem_singleton] at he
        subst he
        simp only [Option.some.injEq] at hn
        rw [← hn]
    · intro n hn
      unfold genCounters at hn
      simp only [List.filterMap_append] at hn
      rcases List.mem_append.mp hn with hn | hn
      · exact Nat.le_succ_of_le (hbound n hn)
      · simp only [List.filterMap_cons, List.filterMap_nil] at hn
        rw [List.mem_singleton] at hn
        show n ≤ st.nextID + 1
        omega
    · unfold genCounters
      simp only [List.filterMap_append, List.filterMap_cons, List.filterMap_nil]
      rw [List.pairwise_append]
      refine ⟨hpair, List.pairwise_singleton _ _, ?_⟩
      intro a ha b hb
      rw [List.mem_singleton] at hb
      subst hb
      have := hbound a ha
      omega
  · have hstep : (spawnStep st c).2
        = { nextID := st.nextID, spawnCount := st.spawnCount + 1,
            registry := registryInsert st.registry c st.spawnCount,
            spawnLog := st.spawnLog ++
              [{ id := c, handle := st.spawnCount, genCounter := none }] } := by
      simp [spawnStep, hc]
    rw [hstep]
    refine ⟨?_, ?_, ?_⟩
    · intro e he n hn
      rcases List.mem_append.mp he with he | he
      · exact hlink e he n hn
      · rw [List.mem_singleton] at he
        subst he
        simp at hn
    · intro n hn
      unfold genCounters at hn
      simp only [List.filterMap_append, List.filterMap_cons,
        List.filterMap_nil, List.append_nil] at hn
      exact hbound n hn
    · unfold genCounters
      simp only [List.filterMap_append, List.filterMap_cons,
        List.filterMap_nil, List.append_nil]
      exact hpair

theorem runSpawns_inv (cs : List String) :
    ∀ st, trackerInv st → trackerInv (runSpawns st cs) := by
  induction cs with
  | nil => exact fun st h => h
  | cons c rest ih => exact fun st h => ih _ (spawnStep_inv st c h)

theorem initialTracker_inv : trackerInv initialTracker := by
  refine ⟨?_, ?_, ?_⟩ <;> simp [genCounters, initialTracker]

/-- C7 counterexample: the claim asserts no id ever identifies two different
spawned processes, but `spawn` stores a caller-supplied id with a plain map
assignment: two spawns with the caller id `dup` both succeed and the history
holds two different processes under the same id. -/
theorem c7_counterexample :
    (runSpawns initialTracker ["dup", "dup"]).spawnLog
      = [{ id := "dup", handle := 0, genCounter := none },
         { id := "dup", handle := 1, genCounter := none }] ∧
    ¬ (((runSpawns initialTracker ["dup", "dup"]).spawnLog.map
        (fun e => e.id)).Nodup) :=
  ⟨rfl, by decide⟩

/-- C7 (amended): ids generated for empty caller ids are `proc-N` with a
strictly increasing N, distinct from each other across the whole daemon
lifetime; a non-empty caller id is used byte-for-byte in the result and in
the recorded history; but a caller-supplied id is not checked against
existing records, so only the generated ids are guaranteed pairwise
distinct. -/
theorem c7_process_identity :
    (∀ st : TrackerState,
      (spawnStep st "").1 = procName (st.nextID + 1) ∧
      (spawnStep (spawnStep st "").2 "").1 = procName (st.nextID + 2) ∧
      st.nextID + 1 < st.nextID + 2 ∧
      (spawnStep st "").1 ≠ (spawnStep (spawnStep st "").2 "").1) ∧
    (∀ (st : TrackerState) (cid : String), cid ≠ "" →
      (spawnStep st cid).1 = cid ∧
      (spawnStep st cid).2.spawnLog
        = st.spawnLog ++
            [{ id := cid, handle := st.spawnCount, genCounter := none }]) ∧
    (∀ cs : List String,
      (((runSpawns initialTracker cs).spawnLog.filter
          (fun e => e.genCounter.isSome)).map (fun e => e.id)).Nodup) := by
  refine ⟨?_, ?_, ?_⟩
  · intro st
    refine ⟨by simp [spawnStep], by simp [spawnStep], by omega, ?_⟩
    intro hEq
    have h1 : (spawnStep st "").1 = procName (st.nextID + 1) := by
      simp [spawnStep]
    have h2 : (spawnStep (spawnStep st "").2 "").1 = procName (st.nextID + 2) := by
      simp [spawnStep]
    rw [h1, h2] at hEq
    have := procName_inj _ _ hEq
    omega
  · intro st cid hc
    exact ⟨by simp [spawnStep, hc], by simp [spawnStep, hc]⟩
  · intro cs
    obtain ⟨hlink, hbound, hpair⟩ :=
      runSpawns_inv cs initialTracker initialTracker_inv
    rw [gen_ids_eq _ hlink]
    have hnodup : (genCounters (runSpawns initialTracker cs)).Nodup :=
      hpair.imp (fun hab => Nat.ne_of_lt hab)
    exact hnodup.map (fun a b hab => procName_inj a b hab)

/-- Witness for `c7_process_identity`: from the initial state, the first
generated id is `proc-1`; a caller id `custom-id` is preserved verbatim;
and the run with caller ids empty, `x`, empty yields pairwise distinct
generated ids. -/
theorem c7_process_identity_witness :
    (spawnStep initialTracker "").1 = procName 1 ∧
    (spawnStep initialTracker "custom-id").1 = "custom-id" ∧
    (((runSpawns initialTracker ["", "x", ""]).spawnLog.filter
        (fun e => e.genCounter.isSome)).map (fun e => e.id)).Nodup :=
  ⟨(c7_process_identity.1 initialTracker).1,
   (c7_process_identity.2.1 initialTracker "custom-id" (by decide)).1,
   c7_process_identity.2.2 ["", "x", ""]⟩

end Cowork
